import Mathlib

/-!
Verification of the hypersync-api repository: two Python scripts
(`add_proof_to_control.py` and `call_hyperproof_api.py`) that call the
Hyperproof compliance API.  We shallowly embed each script's functions:
HTTP interaction is modelled as a function from requests to outcomes, the
filesystem as a predicate on paths, and each Python function returns an
`Outcome` (normal return, `sys.exit`, or uncaught exception) together with
the `Effects` it performed (requests issued, lines printed, logger calls).
-/

/-- JSON values as decoded by Python's `response.json()`. -/
inductive Json where
  | null
  | bool (b : Bool)
  | num (n : Int)
  | str (s : String)
  | arr (elems : List Json)
  | obj (fields : List (String × Json))

/-- Python truthiness of a decoded JSON value (`if x:`). -/
def Json.truthy : Json → Bool
  | .null => false
  | .bool b => b
  | .num n => n != 0
  | .str s => s != ""
  | .arr elems => !elems.isEmpty
  | .obj fields => !fields.isEmpty

/-- Python truthiness of an optional string (`os.environ.get` result). -/
def optTruthy : Option String → Bool
  | none => false
  | some s => s != ""

mutual

/-- Python `str()` of a decoded JSON value, as used by f-string interpolation. -/
def pyStr : Json → String
  | .null => "None"
  | .bool true => "True"
  | .bool false => "False"
  | .num n => toString n
  | .str s => s
  | .arr elems => "[" ++ pyStrList elems ++ "]"
  | .obj fields => "\x7b" ++ pyStrFields fields ++ "\x7d"

/-- Python `repr()` of a decoded JSON value (used for elements of containers). -/
def pyRepr : Json → String
  | .null => "None"
  | .bool true => "True"
  | .bool false => "False"
  | .num n => toString n
  | .str s => "\x27" ++ s ++ "\x27"
  | .arr elems => "[" ++ pyStrList elems ++ "]"
  | .obj fields => "\x7b" ++ pyStrFields fields ++ "\x7d"

/-- Comma-separated reprs of list elements. -/
def pyStrList : List Json → String
  | [] => ""
  | [j] => pyRepr j
  | j :: rest => pyRepr j ++ ", " ++ pyStrList rest

/-- Comma-separated reprs of dict entries. -/
def pyStrFields : List (String × Json) → String
  | [] => ""
  | [(k, v)] => "\x27" ++ k ++ "\x27: " ++ pyRepr v
  | (k, v) :: rest => "\x27" ++ k ++ "\x27: " ++ pyRepr v ++ ", " ++ pyStrFields rest

end

mutual

/-- `json.dumps` of a decoded JSON value (modulo indentation). -/
def jsonDumps : Json → String
  | .null => "null"
  | .bool true => "true"
  | .bool false => "false"
  | .num n => toString n
  | .str s => "\"" ++ s ++ "\""
  | .arr elems => "[" ++ jsonDumpsList elems ++ "]"
  | .obj fields => "\x7b" ++ jsonDumpsFields fields ++ "\x7d"

/-- Comma-separated dumps of list elements. -/
def jsonDumpsList : List Json → String
  | [] => ""
  | [j] => jsonDumps j
  | j :: rest => jsonDumps j ++ ", " ++ jsonDumpsList rest

/-- Comma-separated dumps of dict entries. -/
def jsonDumpsFields : List (String × Json) → String
  | [] => ""
  | [(k, v)] => "\"" ++ k ++ "\": " ++ jsonDumps v
  | (k, v) :: rest => "\"" ++ k ++ "\": " ++ jsonDumps v ++ ", " ++ jsonDumpsFields rest

end

/-- A file attached to a multipart request: `files={'proof': (name, fh[, ctype])}`. -/
structure FilePart where
  field : String
  filename : String
  contentType : Option String
deriving DecidableEq

/-- An HTTP request as issued by `requests.post` / `requests.get`.  Form
fields carry `Option String` values because Python may pass `None`
(e.g. a missing `CLIENT_ID`). -/
structure Request where
  method : String
  url : String
  headers : List (String × String)
  formFields : List (String × Option String) := []
  filePart : Option FilePart := none
  jsonBody : Option Json := none

/-- A received HTTP response: status code, raw text, and the result of
`response.json()` (`none` models a JSON decode error). -/
structure HttpResponse where
  status : Nat
  text : String
  jsonBody : Option Json

/-- Outcome of one `requests` call: a transport-level exception
(`requests.exceptions.RequestException`) or a response. -/
inductive HttpOutcome where
  | netError (msg : String)
  | ok (resp : HttpResponse)

/-- The network environment: what each issued request comes back with. -/
def Net := Request → HttpOutcome

/-- The filesystem: whether `open(path, 'rb')` succeeds. -/
def FileSys := String → Bool

/-- Observable side effects of a call: requests issued, lines printed to
stdout, and `logger.error` / `logger.info` messages. -/
structure Effects where
  calls : List Request := []
  stdout : List String := []
  logErrors : List String := []
  logInfos : List String := []

def Effects.addCall (e : Effects) (r : Request) : Effects :=
  { e with calls := e.calls ++ [r] }

def Effects.pr (e : Effects) (s : String) : Effects :=
  { e with stdout := e.stdout ++ [s] }

def Effects.logError (e : Effects) (s : String) : Effects :=
  { e with logErrors := e.logErrors ++ [s] }

def Effects.logInfo (e : Effects) (s : String) : Effects :=
  { e with logInfos := e.logInfos ++ [s] }

/-- How a Python function call ends: a returned value, `sys.exit code`,
or an uncaught exception. -/
inductive Outcome (α : Type) where
  | ret (val : α)
  | exit (code : Nat)
  | exc (name : String)

def Outcome.isRet : Outcome α → Bool
  | .ret _ => true
  | _ => false

/-- The scripts mark every reported error on stdout with a leading "❌". -/
def reportsError (e : Effects) : Bool :=
  e.stdout.any (fun s => s.startsWith "❌")

namespace add_proof_to_control

def CONTROLS_API_URL : String := "https://api.hyperproof.app/v1/controls"
def PROOF_API_URL : String := "https://api.hyperproof.app/v1/proof/"
def LABELS_API_URL : String := "https://api.hyperproof.app/v1/labels/"
def OAUTH_TOKEN_URL : String := "https://accounts.hyperproof.app/oauth/token"

/-- The OAuth client-credentials POST built by `get_access_token`. -/
def tokenRequest (client_id client_secret : Option String) : Request :=
  { method := "POST"
    url := OAUTH_TOKEN_URL
    headers := [("Content-Type", "application/x-www-form-urlencoded")]
    formFields := [("grant_type", some "client_credentials"),
                   ("client_id", client_id),
                   ("client_secret", client_secret)] }

/-- `get_access_token(client_id, client_secret)`: POSTs the credentials to
the token endpoint.  On a 200 response it decodes JSON and returns the
truthy `access_token` value; a missing/falsy field, a decode error, or a
transport error each print a "❌" line and return `None`; a non-200
response falls off the `if` and returns `None` silently; `.get` on a
non-dict JSON body raises `AttributeError`. -/
def get_access_token (net : Net) (client_id client_secret : Option String) :
    Outcome (Option Json) × Effects :=
  let req := tokenRequest client_id client_secret
  let e0 : Effects :=
    { calls := [req]
      stdout := ["Attempting to fetch access token from " ++ OAUTH_TOKEN_URL ++ "..."] }
  match net req with
  | .netError msg =>
      (.ret none, e0.pr ("❌ A network error occurred while getting token: " ++ msg))
  | .ok resp =>
      if resp.status = 200 then
        match resp.jsonBody with
        | none =>
            (.ret none,
              (e0.pr "❌ Error: Failed to decode JSON response from token URL.").pr
                ("Raw Response: " ++ resp.text))
        | some (.obj fields) =>
            let access_token := (fields.lookup "access_token").getD .null
            if access_token.truthy then
              (.ret (some access_token), e0.pr "✅ Successfully obtained access token.")
            else
              (.ret none,
                (e0.pr "❌ Error: access_token not found in response from token URL.").pr
                  ("Response Body: " ++ resp.text))
        | some _ => (.exc "AttributeError", e0)
      else
        (.ret none, e0)

/-- The `Authorization`/`Accept` headers shared by the upload operations. -/
def authHeaders (access_token : Json) : List (String × String) :=
  [("Authorization", "Bearer " ++ pyStr access_token),
   ("Accept", "application/json")]

/-- The multipart POST built by `add_proof`: note the hardcoded
`application/json` content type on the file part. -/
def proofRequest (access_token : Json) (file_to_upload : String)
    (data : List (String × Option String)) : Request :=
  { method := "POST"
    url := PROOF_API_URL
    headers := authHeaders access_token
    formFields := data
    filePart := some ⟨"proof", file_to_upload, some "application/json"⟩ }

/-- `add_proof(file_to_upload, object_id, object_type)`. -/
def add_proof (net : Net) (fsys : FileSys) (client_id client_secret : Option String)
    (file_to_upload : String) (object_id object_type : Option String) :
    Outcome (Option Json) × Effects :=
  match get_access_token net client_id client_secret with
  | (.ret (some access_token), eT) =>
      let data : List (String × Option String) :=
        if optTruthy object_id && optTruthy object_type then
          [("objectId", object_id), ("objectType", object_type)]
        else []
      let e1 := eT.pr ("Attempting to upload proof file: " ++ file_to_upload ++ "...")
      if fsys file_to_upload then
        let req := proofRequest access_token file_to_upload data
        let e2 := ((e1.pr ("open " ++ file_to_upload ++ " ........")).addCall req)
        match net req with
        | .netError msg =>
            (.ret none, e2.logError ("An unexpected error occurred: " ++ msg))
        | .ok resp =>
            if 400 ≤ resp.status ∧ resp.status < 600 then
              (.ret none, e2.logError
                ("HTTP error occurred: " ++ toString resp.status ++ " - " ++ resp.text))
            else
              match resp.jsonBody with
              | some j => (.ret (some j), e2.logInfo "Successfully added proof")
              | none =>
                  (.ret none, (e2.logInfo "Successfully added proof").logError
                    "An unexpected error occurred: Expecting value")
      else
        (.ret none, e1.logError ("File not found at path: " ++ file_to_upload))
  | (.ret none, eT) =>
      (.exit 1, eT.pr "❌ Halting script: Could not obtain access token.")
  | (.exit c, eT) => (.exit c, eT)
  | (.exc n, eT) => (.exc n, eT)

/-- `version_url = f"{PROOF_API_URL}/{proof_id}/versions"`. -/
def version_url (proof_id : String) : String :=
  PROOF_API_URL ++ "/" ++ proof_id ++ "/versions"

/-- The multipart POST built by `add_proof_version`: the file part carries
the caller's content type only when it is truthy. -/
def versionRequest (access_token : Json) (proof_id file_to_upload : String)
    (content_type : Option String) : Request :=
  { method := "POST"
    url := version_url proof_id
    headers := authHeaders access_token
    filePart := some ⟨"proof", file_to_upload,
                      if optTruthy content_type then content_type else none⟩ }

/-- `add_proof_version(proof_id, file_to_upload, content_type)`. -/
def add_proof_version (net : Net) (fsys : FileSys)
    (client_id client_secret : Option String)
    (proof_id file_to_upload : String) (content_type : Option String) :
    Outcome (Option Json) × Effects :=
  match get_access_token net client_id client_secret with
  | (.ret (some access_token), eT) =>
      let e1 := ((eT.pr ("Attempting to upload new version for proof " ++ proof_id ++ "...")).pr
        ("File: " ++ file_to_upload)).pr ("URL: " ++ version_url proof_id)
      if fsys file_to_upload then
        let req := versionRequest access_token proof_id file_to_upload content_type
        let e2 := e1.addCall req
        match net req with
        | .netError msg =>
            (.ret none, e2.logError ("An unexpected error occurred: " ++ msg))
        | .ok resp =>
            if 400 ≤ resp.status ∧ resp.status < 600 then
              (.ret none, e2.logError
                ("HTTP error occurred: " ++ toString resp.status ++ " - " ++ resp.text))
            else
              match resp.jsonBody with
              | some j =>
                  (.ret (some j), e2.logInfo
                    ("Successfully added new version for proof " ++ proof_id))
              | none =>
                  (.ret none,
                    (e2.logInfo ("Successfully added new version for proof " ++ proof_id)).logError
                      "An unexpected error occurred: Expecting value")
      else
        (.ret none, e1.logError ("File not found at path: " ++ file_to_upload))
  | (.ret none, eT) =>
      (.exit 1, eT.pr "❌ Halting script: Could not obtain access token.")
  | (.exit c, eT) => (.exit c, eT)
  | (.exc n, eT) => (.exc n, eT)

/-- `control_proof_url = f"{CONTROLS_API_URL}/{control_id}/proof"`. -/
def control_proof_url (control_id : String) : String :=
  CONTROLS_API_URL ++ "/" ++ control_id ++ "/proof"

/-- The multipart POST built by `add_control_proof`. -/
def controlProofRequest (access_token : Json) (control_id file_to_upload : String)
    (content_type : Option String) : Request :=
  { method := "POST"
    url := control_proof_url control_id
    headers := authHeaders access_token
    filePart := some ⟨"proof", file_to_upload,
                      if optTruthy content_type then content_type else none⟩ }

/-- `add_control_proof(control_id, file_to_upload, content_type)`. -/
def add_control_proof (net : Net) (fsys : FileSys)
    (client_id client_secret : Option String)
    (control_id file_to_upload : String) (content_type : Option String) :
    Outcome (Option Json) × Effects :=
  match get_access_token net client_id client_secret with
  | (.ret (some access_token), eT) =>
      let e1 := ((eT.pr ("Attempting to upload proof for control " ++ control_id ++ "...")).pr
        ("File: " ++ file_to_upload)).pr ("URL: " ++ control_proof_url control_id)
      if fsys file_to_upload then
        let req := controlProofRequest access_token control_id file_to_upload content_type
        let e2 := e1.addCall req
        match net req with
        | .netError msg =>
            (.ret none, e2.logError ("An unexpected error occurred: " ++ msg))
        | .ok resp =>
            if 400 ≤ resp.status ∧ resp.status < 600 then
              (.ret none, e2.logError
                ("HTTP error occurred: " ++ toString resp.status ++ " - " ++ resp.text))
            else
              match resp.jsonBody with
              | some j =>
                  (.ret (some j), e2.logInfo
                    ("Successfully added proof to control " ++ control_id))
              | none =>
                  (.ret none,
                    (e2.logInfo ("Successfully added proof to control " ++ control_id)).logError
                      "An unexpected error occurred: Expecting value")
      else
        (.ret none, e1.logError ("File not found at path: " ++ file_to_upload))
  | (.ret none, eT) =>
      (.exit 1, eT.pr "❌ Halting script: Could not obtain access token.")
  | (.exit c, eT) => (.exit c, eT)
  | (.exc n, eT) => (.exc n, eT)

/-- The JSON POST built by `create_label`: explicit
`Content-Type: application/json` header and a JSON body. -/
def labelRequest (access_token : Json) (label_name description : String) : Request :=
  { method := "POST"
    url := LABELS_API_URL
    headers := [("Authorization", "Bearer " ++ pyStr access_token),
                ("Accept", "application/json"),
                ("Content-Type", "application/json")]
    jsonBody := some (.obj [("name", .str label_name), ("description", .str description)]) }

/-- `create_label(label_name, description)`. -/
def create_label (net : Net) (client_id client_secret : Option String)
    (label_name description : String) :
    Outcome (Option Json) × Effects :=
  match get_access_token net client_id client_secret with
  | (.ret (some access_token), eT) =>
      let req := labelRequest access_token label_name description
      let e1 := (eT.pr ("Attempting to create label: " ++ label_name ++ "...")).addCall req
      match net req with
      | .netError msg =>
          (.ret none, e1.logError ("An unexpected error occurred: " ++ msg))
      | .ok resp =>
          if 400 ≤ resp.status ∧ resp.status < 600 then
            (.ret none, e1.logError
              ("HTTP error occurred: " ++ toString resp.status ++ " - " ++ resp.text))
          else
            match resp.jsonBody with
            | some j => (.ret (some j), e1.logInfo "Successfully created label")
            | none =>
                (.ret none, (e1.logInfo "Successfully created label").logError
                  "An unexpected error occurred: Expecting value")
  | (.ret none, eT) =>
      (.exit 1, eT.pr "❌ Halting script: Could not obtain access token.")
  | (.exit c, eT) => (.exit c, eT)
  | (.exc n, eT) => (.exc n, eT)

/-- `label_proof_url = f"{LABELS_API_URL}/{label_id}/proof"`. -/
def label_proof_url (label_id : String) : String :=
  LABELS_API_URL ++ "/" ++ label_id ++ "/proof"

/-- The multipart POST built by `add_label_proof`. -/
def labelProofRequest (access_token : Json) (label_id file_to_upload : String)
    (content_type : Option String) : Request :=
  { method := "POST"
    url := label_proof_url label_id
    headers := authHeaders access_token
    filePart := some ⟨"proof", file_to_upload,
                      if optTruthy content_type then content_type else none⟩ }

/-- `add_label_proof(label_id, file_to_upload, content_type)`. -/
def add_label_proof (net : Net) (fsys : FileSys)
    (client_id client_secret : Option String)
    (label_id file_to_upload : String) (content_type : Option String) :
    Outcome (Option Json) × Effects :=
  match get_access_token net client_id client_secret with
  | (.ret (some access_token), eT) =>
      let e1 := ((eT.pr ("Attempting to upload proof for label " ++ label_id ++ "...")).pr
        ("File: " ++ file_to_upload)).pr ("URL: " ++ label_proof_url label_id)
      if fsys file_to_upload then
        let req := labelProofRequest access_token label_id file_to_upload content_type
        let e2 := e1.addCall req
        match net req with
        | .netError msg =>
            (.ret none, e2.logError ("An unexpected error occurred: " ++ msg))
        | .ok resp =>
            if 400 ≤ resp.status ∧ resp.status < 600 then
              (.ret none, e2.logError
                ("HTTP error occurred: " ++ toString resp.status ++ " - " ++ resp.text))
            else
              match resp.jsonBody with
              | some j =>
                  (.ret (some j), e2.logInfo
                    ("Successfully added proof to label " ++ label_id))
              | none =>
                  (.ret none,
                    (e2.logInfo ("Successfully added proof to label " ++ label_id)).logError
                      "An unexpected error occurred: Expecting value")
      else
        (.ret none, e1.logError ("File not found at path: " ++ file_to_upload))
  | (.ret none, eT) =>
      (.exit 1, eT.pr "❌ Halting script: Could not obtain access token.")
  | (.exit c, eT) => (.exit c, eT)
  | (.exc n, eT) => (.exc n, eT)

/-- `link_url = f"{CONTROLS_API_URL}/{control_id}/labels/{label_id}"`. -/
def link_url (control_id label_id : String) : String :=
  CONTROLS_API_URL ++ "/" ++ control_id ++ "/labels/" ++ label_id

/-- The bodiless POST built by `link_label_to_control`. -/
def linkRequest (access_token : Json) (control_id label_id : String) : Request :=
  { method := "POST"
    url := link_url control_id label_id
    headers := authHeaders access_token }

/-- `link_label_to_control(control_id, label_id)`: returns `True` on
success and `None` (not `False`) on failure. -/
def link_label_to_control (net : Net) (client_id client_secret : Option String)
    (control_id label_id : String) :
    Outcome (Option Json) × Effects :=
  match get_access_token net client_id client_secret with
  | (.ret (some access_token), eT) =>
      let req := linkRequest access_token control_id label_id
      let e1 := (eT.pr ("Attempting to link label " ++ label_id ++ " to control " ++
        control_id ++ "...")).addCall req
      match net req with
      | .netError msg =>
          (.ret none, e1.logError ("An unexpected error occurred: " ++ msg))
      | .ok resp =>
          if 400 ≤ resp.status ∧ resp.status < 600 then
            (.ret none, e1.logError
              ("HTTP error occurred: " ++ toString resp.status ++ " - " ++ resp.text))
          else
            (.ret (some (.bool true)), e1.logInfo
              ("Successfully linked label to control " ++ control_id))
  | (.ret none, eT) =>
      (.exit 1, eT.pr "❌ Halting script: Could not obtain access token.")
  | (.exit c, eT) => (.exit c, eT)
  | (.exc n, eT) => (.exc n, eT)

end add_proof_to_control

namespace call_hyperproof_api

def CONTROLS_API_URL : String := "https://api.hyperproof.app/v1/controls/"
def PROOF_API_URL : String := "https://api.hyperproof.app/v1/proof/"
def OAUTH_TOKEN_URL : String := "https://accounts.hyperproof.app/oauth/token"

/-- The OAuth client-credentials POST built by `get_access_token`. -/
def tokenRequest (client_id client_secret : Option String) : Request :=
  { method := "POST"
    url := OAUTH_TOKEN_URL
    headers := [("Content-Type", "application/x-www-form-urlencoded")]
    formFields := [("grant_type", some "client_credentials"),
                   ("client_id", client_id),
                   ("client_secret", client_secret)] }

/-- `get_access_token(client_id, client_secret)`, identical to the copy in
`add_proof_to_control.py`. -/
def get_access_token (net : Net) (client_id client_secret : Option String) :
    Outcome (Option Json) × Effects :=
  let req := tokenRequest client_id client_secret
  let e0 : Effects :=
    { calls := [req]
      stdout := ["Attempting to fetch access token from " ++ OAUTH_TOKEN_URL ++ "..."] }
  match net req with
  | .netError msg =>
      (.ret none, e0.pr ("❌ A network error occurred while getting token: " ++ msg))
  | .ok resp =>
      if resp.status = 200 then
        match resp.jsonBody with
        | none =>
            (.ret none,
              (e0.pr "❌ Error: Failed to decode JSON response from token URL.").pr
                ("Raw Response: " ++ resp.text))
        | some (.obj fields) =>
            let access_token := (fields.lookup "access_token").getD .null
            if access_token.truthy then
              (.ret (some access_token), e0.pr "✅ Successfully obtained access token.")
            else
              (.ret none,
                (e0.pr "❌ Error: access_token not found in response from token URL.").pr
                  ("Response Body: " ++ resp.text))
        | some _ => (.exc "AttributeError", e0)
      else
        (.ret none, e0)

/-- The GET built by `fetch_hyperproof_controls` (note: `Content-Type`
rather than `Accept` in its headers). -/
def controlsRequest (access_token : Json) : Request :=
  { method := "GET"
    url := CONTROLS_API_URL
    headers := [("Authorization", "Bearer " ++ pyStr access_token),
                ("Content-Type", "application/json")] }

/-- `fetch_hyperproof_controls()`: checks the credentials before any
network call, acquires a token (exiting on failure), then GETs the
controls collection; every outcome of the GET is printed to stdout and
the function returns `None`. -/
def fetch_hyperproof_controls (net : Net) (client_id client_secret : Option String) :
    Outcome (Option Json) × Effects :=
  if !optTruthy client_id || !optTruthy client_secret then
    (.exit 1,
      { stdout := ["-----------------------------------------------------------------",
                   "Error: CLIENT_ID or CLIENT_SECRET environment variable is not set.",
                   "Please create a .env file in this directory with:",
                   "  CLIENT_ID=your_client_id_here",
                   "  CLIENT_SECRET=your_client_secret_here",
                   "Then run the script again.",
                   "-----------------------------------------------------------------"] })
  else
    match get_access_token net client_id client_secret with
    | (.ret (some access_token), eT) =>
        let req := controlsRequest access_token
        let e1 := (eT.pr ("Attempting to fetch controls from " ++ CONTROLS_API_URL ++ "...")).addCall req
        match net req with
        | .netError msg =>
            (.ret none, e1.pr ("❌ A network error occurred: " ++ msg))
        | .ok resp =>
            if resp.status = 200 then
              match resp.jsonBody with
              | none =>
                  (.ret none,
                    (e1.pr "❌ Error: Failed to decode JSON response from the server.").pr
                      ("Raw Response: " ++ resp.text))
              | some controls_data =>
                  let e2 := ((e1.pr "✅ Success! Successfully fetched controls.").pr
                    "--- Controls Data ---").pr (jsonDumps controls_data)
                  match controls_data with
                  | .arr elems =>
                      (.ret none, e2.pr ("Found " ++ toString elems.length ++ " controls."))
                  | .obj fields =>
                      match fields.lookup "data" with
                      | some (.arr elems) =>
                          (.ret none, e2.pr
                            ("Found " ++ toString elems.length ++ " controls on this page."))
                      | some (.obj entries) =>
                          (.ret none, e2.pr
                            ("Found " ++ toString entries.length ++ " controls on this page."))
                      | some (.str s) =>
                          (.ret none, e2.pr
                            ("Found " ++ toString s.length ++ " controls on this page."))
                      | some _ =>
                          (.ret none, e2.pr
                            "❌ An unexpected error occurred: object has no len()")
                      | none => (.ret none, e2)
                  | _ => (.ret none, e2)
            else
              let e2 := (e1.pr ("❌ Error: API returned status code " ++
                toString resp.status)).pr ("Response Body: " ++ resp.text)
              if resp.status = 401 ∨ resp.status = 403 then
                (.ret none,
                  (e2.pr "Hint: This often means your access token is invalid or expired,").pr
                    "or the client credentials do not have permission for this API.")
              else
                (.ret none, e2)
    | (.ret none, eT) =>
        (.exit 1, eT.pr "❌ Halting script: Could not obtain access token.")
    | (.exit c, eT) => (.exit c, eT)
    | (.exc n, eT) => (.exc n, eT)

/-- The `Authorization`/`Accept` headers shared by the upload operations. -/
def authHeaders (access_token : Json) : List (String × String) :=
  [("Authorization", "Bearer " ++ pyStr access_token),
   ("Accept", "application/json")]

/-- The multipart POST built by `add_proof`: note the hardcoded
`application/json` content type on the file part. -/
def proofRequest (access_token : Json) (file_to_upload : String)
    (data : List (String × Option String)) : Request :=
  { method := "POST"
    url := PROOF_API_URL
    headers := authHeaders access_token
    formFields := data
    filePart := some ⟨"proof", file_to_upload, some "application/json"⟩ }

/-- `add_proof(file_to_upload, object_id, object_type)`, identical to the
copy in `add_proof_to_control.py`. -/
def add_proof (net : Net) (fsys : FileSys) (client_id client_secret : Option String)
    (file_to_upload : String) (object_id object_type : Option String) :
    Outcome (Option Json) × Effects :=
  match get_access_token net client_id client_secret with
  | (.ret (some access_token), eT) =>
      let data : List (String × Option String) :=
        if optTruthy object_id && optTruthy object_type then
          [("objectId", object_id), ("objectType", object_type)]
        else []
      let e1 := eT.pr ("Attempting to upload proof file: " ++ file_to_upload ++ "...")
      if fsys file_to_upload then
        let req := proofRequest access_token file_to_upload data
        let e2 := ((e1.pr ("open " ++ file_to_upload ++ " ........")).addCall req)
        match net req with
        | .netError msg =>
            (.ret none, e2.logError ("An unexpected error occurred: " ++ msg))
        | .ok resp =>
            if 400 ≤ resp.status ∧ resp.status < 600 then
              (.ret none, e2.logError
                ("HTTP error occurred: " ++ toString resp.status ++ " - " ++ resp.text))
            else
              match resp.jsonBody with
              | some j => (.ret (some j), e2.logInfo "Successfully added proof")
              | none =>
                  (.ret none, (e2.logInfo "Successfully added proof").logError
                    "An unexpected error occurred: Expecting value")
      else
        (.ret none, e1.logError ("File not found at path: " ++ file_to_upload))
  | (.ret none, eT) =>
      (.exit 1, eT.pr "❌ Halting script: Could not obtain access token.")
  | (.exit c, eT) => (.exit c, eT)
  | (.exc n, eT) => (.exc n, eT)

/-- `version_url = f"{PROOF_API_URL}/{proof_id}/versions"`. -/
def version_url (proof_id : String) : String :=
  PROOF_API_URL ++ "/" ++ proof_id ++ "/versions"

/-- The multipart POST built by `add_proof_version`. -/
def versionRequest (access_token : Json) (proof_id file_to_upload : String)
    (content_type : Option String) : Request :=
  { method := "POST"
    url := version_url proof_id
    headers := authHeaders access_token
    filePart := some ⟨"proof", file_to_upload,
                      if optTruthy content_type then content_type else none⟩ }

/-- `add_proof_version(proof_id, file_to_upload, content_type)`, identical
to the copy in `add_proof_to_control.py`. -/
def add_proof_version (net : Net) (fsys : FileSys)
    (client_id client_secret : Option String)
    (proof_id file_to_upload : String) (content_type : Option String) :
    Outcome (Option Json) × Effects :=
  match get_access_token net client_id client_secret with
  | (.ret (some access_token), eT) =>
      let e1 := ((eT.pr ("Attempting to upload new version for proof " ++ proof_id ++ "...")).pr
        ("File: " ++ file_to_upload)).pr ("URL: " ++ version_url proof_id)
      if fsys file_to_upload then
        let req := versionRequest access_token proof_id file_to_upload content_type
        let e2 := e1.addCall req
        match net req with
        | .netError msg =>
            (.ret none, e2.logError ("An unexpected error occurred: " ++ msg))
        | .ok resp =>
            if 400 ≤ resp.status ∧ resp.status < 600 then
              (.ret none, e2.logError
                ("HTTP error occurred: " ++ toString resp.status ++ " - " ++ resp.text))
            else
              match resp.jsonBody with
              | some j =>
                  (.ret (some j), e2.logInfo
                    ("Successfully added new version for proof " ++ proof_id))
              | none =>
                  (.ret none,
                    (e2.logInfo ("Successfully added new version for proof " ++ proof_id)).logError
                      "An unexpected error occurred: Expecting value")
      else
        (.ret none, e1.logError ("File not found at path: " ++ file_to_upload))
  | (.ret none, eT) =>
      (.exit 1, eT.pr "❌ Halting script: Could not obtain access token.")
  | (.exit c, eT) => (.exit c, eT)
  | (.exc n, eT) => (.exc n, eT)

/-- `control_proof_url = f"{CONTROLS_API_URL}/{control_id}/proof"`; the
base URL here ends in a slash, so the result contains a doubled slash. -/
def control_proof_url (control_id : String) : String :=
  CONTROLS_API_URL ++ "/" ++ control_id ++ "/proof"

/-- The multipart POST built by `add_control_proof`. -/
def controlProofRequest (access_token : Json) (control_id file_to_upload : String)
    (content_type : Option String) : Request :=
  { method := "POST"
    url := control_proof_url control_id
    headers := authHeaders access_token
    filePart := some ⟨"proof", file_to_upload,
                      if optTruthy content_type then content_type else none⟩ }

/-- `add_control_proof(control_id, file_to_upload, content_type)`; differs
from the copy in `add_proof_to_control.py` only through
`CONTROLS_API_URL`. -/
def add_control_proof (net : Net) (fsys : FileSys)
    (client_id client_secret : Option String)
    (control_id file_to_upload : String) (content_type : Option String) :
    Outcome (Option Json) × Effects :=
  match get_access_token net client_id client_secret with
  | (.ret (some access_token), eT) =>
      let e1 := ((eT.pr ("Attempting to upload proof for control " ++ control_id ++ "...")).pr
        ("File: " ++ file_to_upload)).pr ("URL: " ++ control_proof_url control_id)
      if fsys file_to_upload then
        let req := controlProofRequest access_token control_id file_to_upload content_type
        let e2 := e1.addCall req
        match net req with
        | .netError msg =>
            (.ret none, e2.logError ("An unexpected error occurred: " ++ msg))
        | .ok resp =>
            if 400 ≤ resp.status ∧ resp.status < 600 then
              (.ret none, e2.logError
                ("HTTP error occurred: " ++ toString resp.status ++ " - " ++ resp.text))
            else
              match resp.jsonBody with
              | some j =>
                  (.ret (some j), e2.logInfo
                    ("Successfully added proof to control " ++ control_id))
              | none =>
                  (.ret none,
                    (e2.logInfo ("Successfully added proof to control " ++ control_id)).logError
                      "An unexpected error occurred: Expecting value")
      else
        (.ret none, e1.logError ("File not found at path: " ++ file_to_upload))
  | (.ret none, eT) =>
      (.exit 1, eT.pr "❌ Halting script: Could not obtain access token.")
  | (.exit c, eT) => (.exit c, eT)
  | (.exc n, eT) => (.exc n, eT)

end call_hyperproof_api

/-- Whether a decoded JSON value is an object (a Python `dict`). -/
def Json.isObj : Json → Bool
  | .obj _ => true
  | _ => false

/-- A token-endpoint response carrying a truthy `access_token`. -/
def tokenOkResponse : HttpResponse :=
  { status := 200, text := "", jsonBody := some (.obj [("access_token", .str "tok123")]) }

/-- A network where every request gets a 200 response with a truthy
`access_token` field. -/
def netTokOK : Net := fun _ => .ok tokenOkResponse

/-- A network where every request gets a bare 401. -/
def net401 : Net := fun _ => .ok { status := 401, text := "unauthorized", jsonBody := none }

/-- A network where every request raises a transport error. -/
def netDown : Net := fun _ => .netError "connection refused"

/-- A network where token acquisition succeeds and every other request
gets a 404. -/
def netTokThen404 : Net := fun r =>
  if r.url = add_proof_to_control.OAUTH_TOKEN_URL then .ok tokenOkResponse
  else .ok { status := 404, text := "not found", jsonBody := none }

/-- A network where token acquisition succeeds and every other request
gets a 201 with a JSON body carrying an id. -/
def netTokThen201 : Net := fun r =>
  if r.url = add_proof_to_control.OAUTH_TOKEN_URL then .ok tokenOkResponse
  else .ok { status := 201, text := "created", jsonBody := some (.obj [("id", .str "p-1")]) }

/-- A network where the token endpoint answers 200 with a JSON body that
is an array, not an object — so `token_data.get(...)` raises
`AttributeError`. -/
def netTokArr : Net := fun _ =>
  .ok { status := 200, text := "[1]", jsonBody := some (.arr [.num 1]) }

/-- A filesystem where every path opens successfully. -/
def fsAll : FileSys := fun _ => true

/-- A filesystem where no path exists. -/
def fsNone : FileSys := fun _ => false

/-! ## Theorems -/

theorem gat_calls_AP (net : Net) (cid csec : Option String) :
    (add_proof_to_control.get_access_token net cid csec).2.calls
      = [add_proof_to_control.tokenRequest cid csec] := by
  rcases h : net (add_proof_to_control.tokenRequest cid csec) with msg | resp
  · simp [add_proof_to_control.get_access_token, h, Effects.pr]
  · rcases resp with ⟨st, tx, jb⟩
    by_cases hs : st = 200
    · rcases jb with _ | j
      · simp [add_proof_to_control.get_access_token, h, hs, Effects.pr]
      · rcases j with _ | b | n | s | el | fl
        · simp [add_proof_to_control.get_access_token, h, hs, Effects.pr]
        · simp [add_proof_to_control.get_access_token, h, hs, Effects.pr]
        · simp [add_proof_to_control.get_access_token, h, hs, Effects.pr]
        · simp [add_proof_to_control.get_access_token, h, hs, Effects.pr]
        · simp [add_proof_to_control.get_access_token, h, hs, Effects.pr]
        · simp [add_proof_to_control.get_access_token, h, hs, Effects.pr]
          split <;> simp [Effects.pr]
    · simp [add_proof_to_control.get_access_token, h, hs, Effects.pr]

theorem gat_calls_CH (net : Net) (cid csec : Option String) :
    (call_hyperproof_api.get_access_token net cid csec).2.calls
      = [call_hyperproof_api.tokenRequest cid csec] := by
  rcases h : net (call_hyperproof_api.tokenRequest cid csec) with msg | resp
  · simp [call_hyperproof_api.get_access_token, h, Effects.pr]
  · rcases resp with ⟨st, tx, jb⟩
    by_cases hs : st = 200
    · rcases jb with _ | j
      · simp [call_hyperproof_api.get_access_token, h, hs, Effects.pr]
      · rcases j with _ | b | n | s | el | fl
        · simp [call_hyperproof_api.get_access_token, h, hs, Effects.pr]
        · simp [call_hyperproof_api.get_access_token, h, hs, Effects.pr]
        · simp [call_hyperproof_api.get_access_token, h, hs, Effects.pr]
        · simp [call_hyperproof_api.get_access_token, h, hs, Effects.pr]
        · simp [call_hyperproof_api.get_access_token, h, hs, Effects.pr]
        · simp [call_hyperproof_api.get_access_token, h, hs, Effects.pr]
          split <;> simp [Effects.pr]
    · simp [call_hyperproof_api.get_access_token, h, hs, Effects.pr]

/-- C1 (corrected).  `get_access_token` issues exactly one token request
(no retry) and returns the truthy `access_token` value exactly when the
response has status 200 and a JSON object body with a truthy
`access_token` field.  A network error, a JSON decode error, and a
missing/falsy `access_token` field each print an error line and return
`None` — but a non-200 response returns `None` silently, printing
nothing, and a 200 response whose JSON body is not an object raises an
uncaught `AttributeError`. -/
theorem C1_token_acquisition (net : Net) (cid csec : Option String) :
    (add_proof_to_control.get_access_token net cid csec).2.calls
        = [add_proof_to_control.tokenRequest cid csec]
    ∧ (∀ msg, net (add_proof_to_control.tokenRequest cid csec) = .netError msg →
        add_proof_to_control.get_access_token net cid csec =
          (.ret none,
            { calls := [add_proof_to_control.tokenRequest cid csec]
              stdout := ["Attempting to fetch access token from " ++
                           add_proof_to_control.OAUTH_TOKEN_URL ++ "...",
                         "❌ A network error occurred while getting token: " ++ msg] }))
    ∧ (∀ resp, net (add_proof_to_control.tokenRequest cid csec) = .ok resp →
        resp.status ≠ 200 →
        add_proof_to_control.get_access_token net cid csec =
          (.ret none,
            { calls := [add_proof_to_control.tokenRequest cid csec]
              stdout := ["Attempting to fetch access token from " ++
                           add_proof_to_control.OAUTH_TOKEN_URL ++ "..."] }))
    ∧ (∀ resp, net (add_proof_to_control.tokenRequest cid csec) = .ok resp →
        resp.status = 200 → resp.jsonBody = none →
        add_proof_to_control.get_access_token net cid csec =
          (.ret none,
            { calls := [add_proof_to_control.tokenRequest cid csec]
              stdout := ["Attempting to fetch access token from " ++
                           add_proof_to_control.OAUTH_TOKEN_URL ++ "...",
                         "❌ Error: Failed to decode JSON response from token URL.",
                         "Raw Response: " ++ resp.text] }))
    ∧ (∀ resp fields, net (add_proof_to_control.tokenRequest cid csec) = .ok resp →
        resp.status = 200 → resp.jsonBody = some (.obj fields) →
        (((fields.lookup "access_token").getD .null).truthy = true →
          add_proof_to_control.get_access_token net cid csec =
            (.ret (some ((fields.lookup "access_token").getD .null)),
              { calls := [add_proof_to_control.tokenRequest cid csec]
                stdout := ["Attempting to fetch access token from " ++
                             add_proof_to_control.OAUTH_TOKEN_URL ++ "...",
                           "✅ Successfully obtained access token."] }))
        ∧ (((fields.lookup "access_token").getD .null).truthy = false →
          add_proof_to_control.get_access_token net cid csec =
            (.ret none,
              { calls := [add_proof_to_control.tokenRequest cid csec]
                stdout := ["Attempting to fetch access token from " ++
                             add_proof_to_control.OAUTH_TOKEN_URL ++ "...",
                           "❌ Error: access_token not found in response from token URL.",
                           "Response Body: " ++ resp.text] })))
    ∧ (∀ resp j, net (add_proof_to_control.tokenRequest cid csec) = .ok resp →
        resp.status = 200 → resp.jsonBody = some j → j.isObj = false →
        add_proof_to_control.get_access_token net cid csec =
          (.exc "AttributeError",
            { calls := [add_proof_to_control.tokenRequest cid csec]
              stdout := ["Attempting to fetch access token from " ++
                           add_proof_to_control.OAUTH_TOKEN_URL ++ "..."] })) := by
  refine ⟨gat_calls_AP net cid csec, ?_, ?_, ?_, ?_, ?_⟩
  · intro msg h
    simp [add_proof_to_control.get_access_token, h, Effects.pr]
  · intro resp h hs
    simp [add_proof_to_control.get_access_token, h, hs, Effects.pr]
  · intro resp h hs hb
    simp [add_proof_to_control.get_access_token, h, hs, hb, Effects.pr]
  · intro resp fields h hs hb
    constructor
    · intro ht
      simp [add_proof_to_control.get_access_token, h, hs, hb, ht, Effects.pr]
    · intro ht
      simp [add_proof_to_control.get_access_token, h, hs, hb, ht, Effects.pr]
  · intro resp j h hs hb hobj
    rcases j with _ | b | n | s | el | fl <;>
      simp [Json.isObj] at hobj <;>
      simp [add_proof_to_control.get_access_token, h, hs, hb, Effects.pr]

/-- C1 witness: a transport error at the token endpoint is reported and
yields `None`. -/
theorem C1_token_acquisition_witness :
    add_proof_to_control.get_access_token netDown (some "id") (some "sec") =
      (.ret none,
        { calls := [add_proof_to_control.tokenRequest (some "id") (some "sec")]
          stdout := ["Attempting to fetch access token from " ++
                       add_proof_to_control.OAUTH_TOKEN_URL ++ "...",
                     "❌ A network error occurred while getting token: connection refused"] }) :=
  (C1_token_acquisition netDown (some "id") (some "sec")).2.1 "connection refused" rfl

/-- C1 counterexample: on a 401 token response `get_access_token` returns
`None` but reports no error at all — its stdout is exactly the one
pre-request line, contradicting the claim that every failure case
reports an error. -/
theorem C1_counterexample :
    add_proof_to_control.get_access_token net401 (some "id") (some "sec") =
      (.ret none,
        { calls := [add_proof_to_control.tokenRequest (some "id") (some "sec")]
          stdout := ["Attempting to fetch access token from " ++
                       add_proof_to_control.OAUTH_TOKEN_URL ++ "..."] })
    ∧ reportsError (add_proof_to_control.get_access_token net401 (some "id") (some "sec")).2
        = false := by
  constructor
  · rfl
  · decide

theorem first_call_add_proof_AP (net : Net) (fsys : FileSys)
    (cid csec : Option String) (p : String) (oid ot : Option String) :
    (add_proof_to_control.add_proof net fsys cid csec p oid ot).2.calls.head?
      = some (add_proof_to_control.tokenRequest cid csec) := by
  rcases hT : add_proof_to_control.get_access_token net cid csec with ⟨o, eT⟩
  have hc : eT.calls = [add_proof_to_control.tokenRequest cid csec] := by
    have h := gat_calls_AP net cid csec
    rw [hT] at h
    exact h
  rcases o with v | c | n
  · rcases v with _ | tok
    · simp [add_proof_to_control.add_proof, hT, Effects.pr, hc]
    · simp only [add_proof_to_control.add_proof, hT]
      repeat' split
      all_goals simp [Effects.pr, Effects.addCall, Effects.logError, Effects.logInfo, hc]
  · simp [add_proof_to_control.add_proof, hT, hc]
  · simp [add_proof_to_control.add_proof, hT, hc]

theorem first_call_add_proof_version_AP (net : Net) (fsys : FileSys)
    (cid csec : Option String) (pid p : String) (ct : Option String) :
    (add_proof_to_control.add_proof_version net fsys cid csec pid p ct).2.calls.head?
      = some (add_proof_to_control.tokenRequest cid csec) := by
  rcases hT : add_proof_to_control.get_access_token net cid csec with ⟨o, eT⟩
  have hc : eT.calls = [add_proof_to_control.tokenRequest cid csec] := by
    have h := gat_calls_AP net cid csec
    rw [hT] at h
    exact h
  rcases o with v | c | n
  · rcases v with _ | tok
    · simp [add_proof_to_control.add_proof_version, hT, Effects.pr, hc]
    · simp only [add_proof_to_control.add_proof_version, hT]
      repeat' split
      all_goals simp [Effects.pr, Effects.addCall, Effects.logError, Effects.logInfo, hc]
  · simp [add_proof_to_control.add_proof_version, hT, hc]
  · simp [add_proof_to_control.add_proof_version, hT, hc]

theorem first_call_add_control_proof_AP (net : Net) (fsys : FileSys)
    (cid csec : Option String) (c p : String) (ct : Option String) :
    (add_proof_to_control.add_control_proof net fsys cid csec c p ct).2.calls.head?
      = some (add_proof_to_control.tokenRequest cid csec) := by
  rcases hT : add_proof_to_control.get_access_token net cid csec with ⟨o, eT⟩
  have hc : eT.calls = [add_proof_to_control.tokenRequest cid csec] := by
    have h := gat_calls_AP net cid csec
    rw [hT] at h
    exact h
  rcases o with v | k | n
  · rcases v with _ | tok
    · simp [add_proof_to_control.add_control_proof, hT, Effects.pr, hc]
    · simp only [add_proof_to_control.add_control_proof, hT]
      repeat' split
      all_goals simp [Effects.pr, Effects.addCall, Effects.logError, Effects.logInfo, hc]
  · simp [add_proof_to_control.add_control_proof, hT, hc]
  · simp [add_proof_to_control.add_control_proof, hT, hc]

theorem first_call_create_label_AP (net : Net)
    (cid csec : Option String) (nm ds : String) :
    (add_proof_to_control.create_label net cid csec nm ds).2.calls.head?
      = some (add_proof_to_control.tokenRequest cid csec) := by
  rcases hT : add_proof_to_control.get_access_token net cid csec with ⟨o, eT⟩
  have hc : eT.calls = [add_proof_to_control.tokenRequest cid csec] := by
    have h := gat_calls_AP net cid csec
    rw [hT] at h
    exact h
  rcases o with v | k | n
  · rcases v with _ | tok
    · simp [add_proof_to_control.create_label, hT, Effects.pr, hc]
    · simp only [add_proof_to_control.create_label, hT]
      repeat' split
      all_goals simp [Effects.pr, Effects.addCall, Effects.logError, Effects.logInfo, hc]
  · simp [add_proof_to_control.create_label, hT, hc]
  · simp [add_proof_to_control.create_label, hT, hc]

theorem first_call_add_label_proof_AP (net : Net) (fsys : FileSys)
    (cid csec : Option String) (l p : String) (ct : Option String) :
    (add_proof_to_control.add_label_proof net fsys cid csec l p ct).2.calls.head?
      = some (add_proof_to_control.tokenRequest cid csec) := by
  rcases hT : add_proof_to_control.get_access_token net cid csec with ⟨o, eT⟩
  have hc : eT.calls = [add_proof_to_control.tokenRequest cid csec] := by
    have h := gat_calls_AP net cid csec
    rw [hT] at h
    exact h
  rcases o with v | k | n
  · rcases v with _ | tok
    · simp [add_proof_to_control.add_label_proof, hT, Effects.pr, hc]
    · simp only [add_proof_to_control.add_label_proof, hT]
      repeat' split
      all_goals simp [Effects.pr, Effects.addCall, Effects.logError, Effects.logInfo, hc]
  · simp [add_proof_to_control.add_label_proof, hT, hc]
  · simp [add_proof_to_control.add_label_proof, hT, hc]

theorem first_call_link_label_to_control_AP (net : Net)
    (cid csec : Option String) (c l : String) :
    (add_proof_to_control.link_label_to_control net cid csec c l).2.calls.head?
      = some (add_proof_to_control.tokenRequest cid csec) := by
  rcases hT : add_proof_to_control.get_access_token net cid csec with ⟨o, eT⟩
  have hc : eT.calls = [add_proof_to_control.tokenRequest cid csec] := by
    have h := gat_calls_AP net cid csec
    rw [hT] at h
    exact h
  rcases o with v | k | n
  · rcases v with _ | tok
    · simp [add_proof_to_control.link_label_to_control, hT, Effects.pr, hc]
    · simp only [add_proof_to_control.link_label_to_control, hT]
      repeat' split
      all_goals simp [Effects.pr, Effects.addCall, Effects.logError, Effects.logInfo, hc]
  · simp [add_proof_to_control.link_label_to_control, hT, hc]
  · simp [add_proof_to_control.link_label_to_control, hT, hc]

theorem first_call_add_proof_CH (net : Net) (fsys : FileSys)
    (cid csec : Option String) (p : String) (oid ot : Option String) :
    (call_hyperproof_api.add_proof net fsys cid csec p oid ot).2.calls.head?
      = some (call_hyperproof_api.tokenRequest cid csec) := by
  rcases hT : call_hyperproof_api.get_access_token net cid csec with ⟨o, eT⟩
  have hc : eT.calls = [call_hyperproof_api.tokenRequest cid csec] := by
    have h := gat_calls_CH net cid csec
    rw [hT] at h
    exact h
  rcases o with v | k | n
  · rcases v with _ | tok
    · simp [call_hyperproof_api.add_proof, hT, Effects.pr, hc]
    · simp only [call_hyperproof_api.add_proof, hT]
      repeat' split
      all_goals simp [Effects.pr, Effects.addCall, Effects.logError, Effects.logInfo, hc]
  · simp [call_hyperproof_api.add_proof, hT, hc]
  · simp [call_hyperproof_api.add_proof, hT, hc]

theorem first_call_add_proof_version_CH (net : Net) (fsys : FileSys)
    (cid csec : Option String) (pid p : String) (ct : Option String) :
    (call_hyperproof_api.add_proof_version net fsys cid csec pid p ct).2.calls.head?
      = some (call_hyperproof_api.tokenRequest cid csec) := by
  rcases hT : call_hyperproof_api.get_access_token net cid csec with ⟨o, eT⟩
  have hc : eT.calls = [call_hyperproof_api.tokenRequest cid csec] := by
    have h := gat_calls_CH net cid csec
    rw [hT] at h
    exact h
  rcases o with v | k | n
  · rcases v with _ | tok
    · simp [call_hyperproof_api.add_proof_version, hT, Effects.pr, hc]
    · simp only [call_hyperproof_api.add_proof_version, hT]
      repeat' split
      all_goals simp [Effects.pr, Effects.addCall, Effects.logError, Effects.logInfo, hc]
  · simp [call_hyperproof_api.add_proof_version, hT, hc]
  · simp [call_hyperproof_api.add_proof_version, hT, hc]

theorem first_call_add_control_proof_CH (net : Net) (fsys : FileSys)
    (cid csec : Option String) (c p : String) (ct : Option String) :
    (call_hyperproof_api.add_control_proof net fsys cid csec c p ct).2.calls.head?
      = some (call_hyperproof_api.tokenRequest cid csec) := by
  rcases hT : call_hyperproof_api.get_access_token net cid csec with ⟨o, eT⟩
  have hc : eT.calls = [call_hyperproof_api.tokenRequest cid csec] := by
    have h := gat_calls_CH net cid csec
    rw [hT] at h
    exact h
  rcases o with v | k | n
  · rcases v with _ | tok
    · simp [call_hyperproof_api.add_control_proof, hT, Effects.pr, hc]
    · simp only [call_hyperproof_api.add_control_proof, hT]
      repeat' split
      all_goals simp [Effects.pr, Effects.addCall, Effects.logError, Effects.logInfo, hc]
  · simp [call_hyperproof_api.add_control_proof, hT, hc]
  · simp [call_hyperproof_api.add_control_proof, hT, hc]

/-- C2 (corrected).  Only `fetch_hyperproof_controls` checks the
credentials and halts with exit 1 before any network call when
`CLIENT_ID` or `CLIENT_SECRET` is absent or empty; every other public
operation issues the token POST — carrying the absent credential — as
its first network call regardless of whether the credentials are
present. -/
theorem C2_missing_credentials (net : Net) (fsys : FileSys)
    (cid csec : Option String) (p pid c l nm ds : String) (oid ot ct : Option String) :
    (optTruthy cid = false ∨ optTruthy csec = false →
      (call_hyperproof_api.fetch_hyperproof_controls net cid csec).1 = .exit 1
      ∧ (call_hyperproof_api.fetch_hyperproof_controls net cid csec).2.calls = [])
    ∧ (add_proof_to_control.add_proof net fsys cid csec p oid ot).2.calls.head?
        = some (add_proof_to_control.tokenRequest cid csec)
    ∧ (add_proof_to_control.add_proof_version net fsys cid csec pid p ct).2.calls.head?
        = some (add_proof_to_control.tokenRequest cid csec)
    ∧ (add_proof_to_control.add_control_proof net fsys cid csec c p ct).2.calls.head?
        = some (add_proof_to_control.tokenRequest cid csec)
    ∧ (add_proof_to_control.create_label net cid csec nm ds).2.calls.head?
        = some (add_proof_to_control.tokenRequest cid csec)
    ∧ (add_proof_to_control.add_label_proof net fsys cid csec l p ct).2.calls.head?
        = some (add_proof_to_control.tokenRequest cid csec)
    ∧ (add_proof_to_control.link_label_to_control net cid csec c l).2.calls.head?
        = some (add_proof_to_control.tokenRequest cid csec)
    ∧ (call_hyperproof_api.add_proof net fsys cid csec p oid ot).2.calls.head?
        = some (call_hyperproof_api.tokenRequest cid csec)
    ∧ (call_hyperproof_api.add_proof_version net fsys cid csec pid p ct).2.calls.head?
        = some (call_hyperproof_api.tokenRequest cid csec)
    ∧ (call_hyperproof_api.add_control_proof net fsys cid csec c p ct).2.calls.head?
        = some (call_hyperproof_api.tokenRequest cid csec) := by
  refine ⟨?_, first_call_add_proof_AP net fsys cid csec p oid ot,
    first_call_add_proof_version_AP net fsys cid csec pid p ct,
    first_call_add_control_proof_AP net fsys cid csec c p ct,
    first_call_create_label_AP net cid csec nm ds,
    first_call_add_label_proof_AP net fsys cid csec l p ct,
    first_call_link_label_to_control_AP net cid csec c l,
    first_call_add_proof_CH net fsys cid csec p oid ot,
    first_call_add_proof_version_CH net fsys cid csec pid p ct,
    first_call_add_control_proof_CH net fsys cid csec c p ct⟩
  intro hcred
  rcases hcred with hcred | hcred <;>
    simp [call_hyperproof_api.fetch_hyperproof_controls, hcred]

/-- C2 witness: with `CLIENT_ID` absent, `fetch_hyperproof_controls`
exits with code 1 before any network call, while `add_proof` still sends
the token request first. -/
theorem C2_missing_credentials_witness :
    (call_hyperproof_api.fetch_hyperproof_controls netTokOK none (some "sec")).1 = .exit 1
    ∧ (call_hyperproof_api.fetch_hyperproof_controls netTokOK none (some "sec")).2.calls = []
    ∧ (add_proof_to_control.add_proof netTokOK fsAll none (some "sec") "f" none none).2.calls.head?
        = some (add_proof_to_control.tokenRequest none (some "sec")) := by
  have h := C2_missing_credentials netTokOK fsAll none (some "sec") "f" "p" "c" "l" "n" "d"
    none none none
  exact ⟨(h.1 (Or.inl (by decide))).1, (h.1 (Or.inl (by decide))).2, h.2.1⟩

/-- C2 counterexample: with `CLIENT_ID` absent, `add_proof` performs the
token network call (one request is issued) before halting, contradicting
the claim that execution halts before any network call. -/
theorem C2_counterexample :
    (add_proof_to_control.add_proof netDown fsAll none (some "sec") "f" none none).1 = .exit 1
    ∧ (add_proof_to_control.add_proof netDown fsAll none (some "sec") "f" none none).2.calls
        = [add_proof_to_control.tokenRequest none (some "sec")]
    ∧ (add_proof_to_control.add_proof netDown fsAll none (some "sec") "f" none none).2.calls.length
        = 1 := by
  exact ⟨rfl, rfl, rfl⟩

/-- C3 (confirmed).  For each upload/create/link operation: a failed
token acquisition terminates with `sys.exit 1` before the action HTTP
call (only the token request is in the trace), whereas with a token in
hand every failure of the action itself — missing local file, transport
error, 4xx/5xx status, or a JSON decode error on the response body — is
caught, logged through the logger, and turned into a `None` return: the
operation always returns normally. -/
theorem C3_error_propagation (net : Net) (fsys : FileSys)
    (cid csec : Option String) (p pid c l nm ds : String) (oid ot ct : Option String) :
    -- add_proof (add_proof_to_control.py)
    (∀ eT, add_proof_to_control.get_access_token net cid csec = (.ret none, eT) →
      add_proof_to_control.add_proof net fsys cid csec p oid ot
          = (.exit 1, eT.pr "❌ Halting script: Could not obtain access token.")
      ∧ (add_proof_to_control.add_proof net fsys cid csec p oid ot).2.calls
          = [add_proof_to_control.tokenRequest cid csec])
    ∧ (∀ tok eT, add_proof_to_control.get_access_token net cid csec = (.ret (some tok), eT) →
      (add_proof_to_control.add_proof net fsys cid csec p oid ot).1.isRet = true)
    ∧ (∀ tok eT, add_proof_to_control.get_access_token net cid csec = (.ret (some tok), eT) →
      fsys p = false →
      (add_proof_to_control.add_proof net fsys cid csec p oid ot).1 = .ret none
      ∧ ("File not found at path: " ++ p)
          ∈ (add_proof_to_control.add_proof net fsys cid csec p oid ot).2.logErrors)
    ∧ (∀ tok eT msg, add_proof_to_control.get_access_token net cid csec = (.ret (some tok), eT) →
      fsys p = true →
      net (add_proof_to_control.proofRequest tok p
        (if optTruthy oid && optTruthy ot then [("objectId", oid), ("objectType", ot)] else []))
          = .netError msg →
      (add_proof_to_control.add_proof net fsys cid csec p oid ot).1 = .ret none
      ∧ ("An unexpected error occurred: " ++ msg)
          ∈ (add_proof_to_control.add_proof net fsys cid csec p oid ot).2.logErrors)
    ∧ (∀ tok eT resp, add_proof_to_control.get_access_token net cid csec = (.ret (some tok), eT) →
      fsys p = true →
      net (add_proof_to_control.proofRequest tok p
        (if optTruthy oid && optTruthy ot then [("objectId", oid), ("objectType", ot)] else []))
          = .ok resp →
      400 ≤ resp.status → resp.status < 600 →
      (add_proof_to_control.add_proof net fsys cid csec p oid ot).1 = .ret none
      ∧ ("HTTP error occurred: " ++ toString resp.status ++ " - " ++ resp.text)
          ∈ (add_proof_to_control.add_proof net fsys cid csec p oid ot).2.logErrors)
    ∧ (∀ tok eT resp, add_proof_to_control.get_access_token net cid csec = (.ret (some tok), eT) →
      fsys p = true →
      net (add_proof_to_control.proofRequest tok p
        (if optTruthy oid && optTruthy ot then [("objectId", oid), ("objectType", ot)] else []))
          = .ok resp →
      resp.status < 400 → resp.jsonBody = none →
      (add_proof_to_control.add_proof net fsys cid csec p oid ot).1 = .ret none
      ∧ "An unexpected error occurred: Expecting value"
          ∈ (add_proof_to_control.add_proof net fsys cid csec p oid ot).2.logErrors)
    -- add_proof_version (add_proof_to_control.py)
    ∧ (∀ eT, add_proof_to_control.get_access_token net cid csec = (.ret none, eT) →
      add_proof_to_control.add_proof_version net fsys cid csec pid p ct
          = (.exit 1, eT.pr "❌ Halting script: Could not obtain access token.")
      ∧ (add_proof_to_control.add_proof_version net fsys cid csec pid p ct).2.calls
          = [add_proof_to_control.tokenRequest cid csec])
    ∧ (∀ tok eT, add_proof_to_control.get_access_token net cid csec = (.ret (some tok), eT) →
      (add_proof_to_control.add_proof_version net fsys cid csec pid p ct).1.isRet = true)
    ∧ (∀ tok eT, add_proof_to_control.get_access_token net cid csec = (.ret (some tok), eT) →
      fsys p = false →
      (add_proof_to_control.add_proof_version net fsys cid csec pid p ct).1 = .ret none
      ∧ ("File not found at path: " ++ p)
          ∈ (add_proof_to_control.add_proof_version net fsys cid csec pid p ct).2.logErrors)
    ∧ (∀ tok eT msg, add_proof_to_control.get_access_token net cid csec = (.ret (some tok), eT) →
      fsys p = true →
      net (add_proof_to_control.versionRequest tok pid p ct) = .netError msg →
      (add_proof_to_control.add_proof_version net fsys cid csec pid p ct).1 = .ret none
      ∧ ("An unexpected error occurred: " ++ msg)
          ∈ (add_proof_to_control.add_proof_version net fsys cid csec pid p ct).2.logErrors)
    ∧ (∀ tok eT resp, add_proof_to_control.get_access_token net cid csec = (.ret (some tok), eT) →
      fsys p = true →
      net (add_proof_to_control.versionRequest tok pid p ct) = .ok resp →
      400 ≤ resp.status → resp.status < 600 →
      (add_proof_to_control.add_proof_version net fsys cid csec pid p ct).1 = .ret none
      ∧ ("HTTP error occurred: " ++ toString resp.status ++ " - " ++ resp.text)
          ∈ (add_proof_to_control.add_proof_version net fsys cid csec pid p ct).2.logErrors)
    ∧ (∀ tok eT resp, add_proof_to_control.get_access_token net cid csec = (.ret (some tok), eT) →
      fsys p = true →
      net (add_proof_to_control.versionRequest tok pid p ct) = .ok resp →
      resp.status < 400 → resp.jsonBody = none →
      (add_proof_to_control.add_proof_version net fsys cid csec pid p ct).1 = .ret none
      ∧ "An unexpected error occurred: Expecting value"
          ∈ (add_proof_to_control.add_proof_version net fsys cid csec pid p ct).2.logErrors)
    -- add_control_proof (add_proof_to_control.py)
    ∧ (∀ eT, add_proof_to_control.get_access_token net cid csec = (.ret none, eT) →
      add_proof_to_control.add_control_proof net fsys cid csec c p ct
          = (.exit 1, eT.pr "❌ Halting script: Could not obtain access token.")
      ∧ (add_proof_to_control.add_control_proof net fsys cid csec c p ct).2.calls
          = [add_proof_to_control.tokenRequest cid csec])
    ∧ (∀ tok eT, add_proof_to_control.get_access_token net cid csec = (.ret (some tok), eT) →
      (add_proof_to_control.add_control_proof net fsys cid csec c p ct).1.isRet = true)
    ∧ (∀ tok eT, add_proof_to_control.get_access_token net cid csec = (.ret (some tok), eT) →
      fsys p = false →
      (add_proof_to_control.add_control_proof net fsys cid csec c p ct).1 = .ret none
      ∧ ("File not found at path: " ++ p)
          ∈ (add_proof_to_control.add_control_proof net fsys cid csec c p ct).2.logErrors)
    ∧ (∀ tok eT msg, add_proof_to_control.get_access_token net cid csec = (.ret (some tok), eT) →
      fsys p = true →
      net (add_proof_to_control.controlProofRequest tok c p ct) = .netError msg →
      (add_proof_to_control.add_control_proof net fsys cid csec c p ct).1 = .ret none
      ∧ ("An unexpected error occurred: " ++ msg)
          ∈ (add_proof_to_control.add_control_proof net fsys cid csec c p ct).2.logErrors)
    ∧ (∀ tok eT resp, add_proof_to_control.get_access_token net cid csec = (.ret (some tok), eT) →
      fsys p = true →
      net (add_proof_to_control.controlProofRequest tok c p ct) = .ok resp →
      400 ≤ resp.status → resp.status < 600 →
      (add_proof_to_control.add_control_proof net fsys cid csec c p ct).1 = .ret none
      ∧ ("HTTP error occurred: " ++ toString resp.status ++ " - " ++ resp.text)
          ∈ (add_proof_to_control.add_control_proof net fsys cid csec c p ct).2.logErrors)
    -- create_label (add_proof_to_control.py)
    ∧ (∀ eT, add_proof_to_control.get_access_token net cid csec = (.ret none, eT) →
      add_proof_to_control.create_label net cid csec nm ds
          = (.exit 1, eT.pr "❌ Halting script: Could not obtain access token.")
      ∧ (add_proof_to_control.create_label net cid csec nm ds).2.calls
          = [add_proof_to_control.tokenRequest cid csec])
    ∧ (∀ tok eT, add_proof_to_control.get_access_token net cid csec = (.ret (some tok), eT) →
      (add_proof_to_control.create_label net cid csec nm ds).1.isRet = true)
    ∧ (∀ tok eT msg, add_proof_to_control.get_access_token net cid csec = (.ret (some tok), eT) →
      net (add_proof_to_control.labelRequest tok nm ds) = .netError msg →
      (add_proof_to_control.create_label net cid csec nm ds).1 = .ret none
      ∧ ("An unexpected error occurred: " ++ msg)
          ∈ (add_proof_to_control.create_label net cid csec nm ds).2.logErrors)
    ∧ (∀ tok eT resp, add_proof_to_control.get_access_token net cid csec = (.ret (some tok), eT) →
      net (add_proof_to_control.labelRequest tok nm ds) = .ok resp →
      400 ≤ resp.status → resp.status < 600 →
      (add_proof_to_control.create_label net cid csec nm ds).1 = .ret none
      ∧ ("HTTP error occurred: " ++ toString resp.status ++ " - " ++ resp.text)
          ∈ (add_proof_to_control.create_label net cid csec nm ds).2.logErrors)
    -- add_label_proof (add_proof_to_control.py)
    ∧ (∀ eT, add_proof_to_control.get_access_token net cid csec = (.ret none, eT) →
      add_proof_to_control.add_label_proof net fsys cid csec l p ct
          = (.exit 1, eT.pr "❌ Halting script: Could not obtain access token.")
      ∧ (add_proof_to_control.add_label_proof net fsys cid csec l p ct).2.calls
          = [add_proof_to_control.tokenRequest cid csec])
    ∧ (∀ tok eT, add_proof_to_control.get_access_token net cid csec = (.ret (some tok), eT) →
      (add_proof_to_control.add_label_proof net fsys cid csec l p ct).1.isRet = true)
    ∧ (∀ tok eT, add_proof_to_control.get_access_token net cid csec = (.ret (some tok), eT) →
      fsys p = false →
      (add_proof_to_control.add_label_proof net fsys cid csec l p ct).1 = .ret none
      ∧ ("File not found at path: " ++ p)
          ∈ (add_proof_to_control.add_label_proof net fsys cid csec l p ct).2.logErrors)
    ∧ (∀ tok eT msg, add_proof_to_control.get_access_token net cid csec = (.ret (some tok), eT) →
      fsys p = true →
      net (add_proof_to_control.labelProofRequest tok l p ct) = .netError msg →
      (add_proof_to_control.add_label_proof net fsys cid csec l p ct).1 = .ret none
      ∧ ("An unexpected error occurred: " ++ msg)
          ∈ (add_proof_to_control.add_label_proof net fsys cid csec l p ct).2.logErrors)
    ∧ (∀ tok eT resp, add_proof_to_control.get_access_token net cid csec = (.ret (some tok), eT) →
      fsys p = true →
      net (add_proof_to_control.labelProofRequest tok l p ct) = .ok resp →
      400 ≤ resp.status → resp.status < 600 →
      (add_proof_to_control.add_label_proof net fsys cid csec l p ct).1 = .ret none
      ∧ ("HTTP error occurred: " ++ toString resp.status ++ " - " ++ resp.text)
          ∈ (add_proof_to_control.add_label_proof net fsys cid csec l p ct).2.logErrors)
    -- link_label_to_control (add_proof_to_control.py)
    ∧ (∀ eT, add_proof_to_control.get_access_token net cid csec = (.ret none, eT) →
      add_proof_to_control.link_label_to_control net cid csec c l
          = (.exit 1, eT.pr "❌ Halting script: Could not obtain access token.")
      ∧ (add_proof_to_control.link_label_to_control net cid csec c l).2.calls
          = [add_proof_to_control.tokenRequest cid csec])
    ∧ (∀ tok eT, add_proof_to_control.get_access_token net cid csec = (.ret (some tok), eT) →
      (add_proof_to_control.link_label_to_control net cid csec c l).1.isRet = true)
    ∧ (∀ tok eT msg, add_proof_to_control.get_access_token net cid csec = (.ret (some tok), eT) →
      net (add_proof_to_control.linkRequest tok c l) = .netError msg →
      (add_proof_to_control.link_label_to_control net cid csec c l).1 = .ret none
      ∧ ("An unexpected error occurred: " ++ msg)
          ∈ (add_proof_to_control.link_label_to_control net cid csec c l).2.logErrors)
    ∧ (∀ tok eT resp, add_proof_to_control.get_access_token net cid csec = (.ret (some tok), eT) →
      net (add_proof_to_control.linkRequest tok c l) = .ok resp →
      400 ≤ resp.status → resp.status < 600 →
      (add_proof_to_control.link_label_to_control net cid csec c l).1 = .ret none
      ∧ ("HTTP error occurred: " ++ toString resp.status ++ " - " ++ resp.text)
          ∈ (add_proof_to_control.link_label_to_control net cid csec c l).2.logErrors)
    -- add_proof_version (call_hyperproof_api.py)
    ∧ (∀ eT, call_hyperproof_api.get_access_token net cid csec = (.ret none, eT) →
      call_hyperproof_api.add_proof_version net fsys cid csec pid p ct
          = (.exit 1, eT.pr "❌ Halting script: Could not obtain access token.")
      ∧ (call_hyperproof_api.add_proof_version net fsys cid csec pid p ct).2.calls
          = [call_hyperproof_api.tokenRequest cid csec])
    ∧ (∀ tok eT, call_hyperproof_api.get_access_token net cid csec = (.ret (some tok), eT) →
      (call_hyperproof_api.add_proof_version net fsys cid csec pid p ct).1.isRet = true)
    ∧ (∀ tok eT, call_hyperproof_api.get_access_token net cid csec = (.ret (some tok), eT) →
      fsys p = false →
      (call_hyperproof_api.add_proof_version net fsys cid csec pid p ct).1 = .ret none
      ∧ ("File not found at path: " ++ p)
          ∈ (call_hyperproof_api.add_proof_version net fsys cid csec pid p ct).2.logErrors)
    ∧ (∀ tok eT msg, call_hyperproof_api.get_access_token net cid csec = (.ret (some tok), eT) →
      fsys p = true →
      net (call_hyperproof_api.versionRequest tok pid p ct) = .netError msg →
      (call_hyperproof_api.add_proof_version net fsys cid csec pid p ct).1 = .ret none
      ∧ ("An unexpected error occurred: " ++ msg)
          ∈ (call_hyperproof_api.add_proof_version net fsys cid csec pid p ct).2.logErrors)
    ∧ (∀ tok eT resp, call_hyperproof_api.get_access_token net cid csec = (.ret (some tok), eT) →
      fsys p = true →
      net (call_hyperproof_api.versionRequest tok pid p ct) = .ok resp →
      400 ≤ resp.status → resp.status < 600 →
      (call_hyperproof_api.add_proof_version net fsys cid csec pid p ct).1 = .ret none
      ∧ ("HTTP error occurred: " ++ toString resp.status ++ " - " ++ resp.text)
          ∈ (call_hyperproof_api.add_proof_version net fsys cid csec pid p ct).2.logErrors) := by
  refine ⟨?_, ?_, ?_, ?_, ?_, ?_, ?_, ?_, ?_, ?_, ?_, ?_, ?_, ?_, ?_, ?_, ?_, ?_, ?_, ?_,
    ?_, ?_, ?_, ?_, ?_, ?_, ?_, ?_, ?_, ?_, ?_, ?_, ?_, ?_, ?_⟩
  -- add_proof (AP)
  · intro eT hT
    have hc : eT.calls = [add_proof_to_control.tokenRequest cid csec] := by
      have h := gat_calls_AP net cid csec
      rw [hT] at h
      exact h
    exact ⟨by simp [add_proof_to_control.add_proof, hT],
      by simp [add_proof_to_control.add_proof, hT, Effects.pr, hc]⟩
  · intro tok eT hT
    simp only [add_proof_to_control.add_proof, hT]
    repeat' split
    all_goals simp [Outcome.isRet]
  · intro tok eT hT hf
    refine ⟨by simp [add_proof_to_control.add_proof, hT, hf], ?_⟩
    simp [add_proof_to_control.add_proof, hT, hf, Effects.pr, Effects.logError]
  · intro tok eT msg hT hf hnet
    simp only [Bool.and_eq_true] at hnet
    refine ⟨by simp [add_proof_to_control.add_proof, hT, hf, hnet], ?_⟩
    simp [add_proof_to_control.add_proof, hT, hf, hnet, Effects.pr, Effects.addCall,
      Effects.logError]
  · intro tok eT resp hT hf hnet h4 h6
    simp only [Bool.and_eq_true] at hnet
    refine ⟨by simp [add_proof_to_control.add_proof, hT, hf, hnet, h4, h6], ?_⟩
    simp [add_proof_to_control.add_proof, hT, hf, hnet, h4, h6, Effects.pr, Effects.addCall,
      Effects.logError]
  · intro tok eT resp hT hf hnet hlt hb
    have h4 : ¬ 400 ≤ resp.status := by omega
    simp only [Bool.and_eq_true] at hnet
    refine ⟨by simp [add_proof_to_control.add_proof, hT, hf, hnet, h4, hb], ?_⟩
    simp [add_proof_to_control.add_proof, hT, hf, hnet, h4, hb, Effects.pr, Effects.addCall,
      Effects.logError, Effects.logInfo]
  -- add_proof_version (AP)
  · intro eT hT
    have hc : eT.calls = [add_proof_to_control.tokenRequest cid csec] := by
      have h := gat_calls_AP net cid csec
      rw [hT] at h
      exact h
    exact ⟨by simp [add_proof_to_control.add_proof_version, hT],
      by simp [add_proof_to_control.add_proof_version, hT, Effects.pr, hc]⟩
  · intro tok eT hT
    simp only [add_proof_to_control.add_proof_version, hT]
    repeat' split
    all_goals simp [Outcome.isRet]
  · intro tok eT hT hf
    refine ⟨by simp [add_proof_to_control.add_proof_version, hT, hf], ?_⟩
    simp [add_proof_to_control.add_proof_version, hT, hf, Effects.pr, Effects.logError]
  · intro tok eT msg hT hf hnet
    refine ⟨by simp [add_proof_to_control.add_proof_version, hT, hf, hnet], ?_⟩
    simp [add_proof_to_control.add_proof_version, hT, hf, hnet, Effects.pr, Effects.addCall,
      Effects.logError]
  · intro tok eT resp hT hf hnet h4 h6
    refine ⟨by simp [add_proof_to_control.add_proof_version, hT, hf, hnet, h4, h6], ?_⟩
    simp [add_proof_to_control.add_proof_version, hT, hf, hnet, h4, h6, Effects.pr,
      Effects.addCall, Effects.logError]
  · intro tok eT resp hT hf hnet hlt hb
    have h4 : ¬ 400 ≤ resp.status := by omega
    refine ⟨by simp [add_proof_to_control.add_proof_version, hT, hf, hnet, h4, hb], ?_⟩
    simp [add_proof_to_control.add_proof_version, hT, hf, hnet, h4, hb, Effects.pr,
      Effects.addCall, Effects.logError, Effects.logInfo]
  -- add_control_proof (AP)
  · intro eT hT
    have hc : eT.calls = [add_proof_to_control.tokenRequest cid csec] := by
      have h := gat_calls_AP net cid csec
      rw [hT] at h
      exact h
    exact ⟨by simp [add_proof_to_control.add_control_proof, hT],
      by simp [add_proof_to_control.add_control_proof, hT, Effects.pr, hc]⟩
  · intro tok eT hT
    simp only [add_proof_to_control.add_control_proof, hT]
    repeat' split
    all_goals simp [Outcome.isRet]
  · intro tok eT hT hf
    refine ⟨by simp [add_proof_to_control.add_control_proof, hT, hf], ?_⟩
    simp [add_proof_to_control.add_control_proof, hT, hf, Effects.pr, Effects.logError]
  · intro tok eT msg hT hf hnet
    refine ⟨by simp [add_proof_to_control.add_control_proof, hT, hf, hnet], ?_⟩
    simp [add_proof_to_control.add_control_proof, hT, hf, hnet, Effects.pr, Effects.addCall,
      Effects.logError]
  · intro tok eT resp hT hf hnet h4 h6
    refine ⟨by simp [add_proof_to_control.add_control_proof, hT, hf, hnet, h4, h6], ?_⟩
    simp [add_proof_to_control.add_control_proof, hT, hf, hnet, h4, h6, Effects.pr,
      Effects.addCall, Effects.logError]
  -- create_label (AP)
  · intro eT hT
    have hc : eT.calls = [add_proof_to_control.tokenRequest cid csec] := by
      have h := gat_calls_AP net cid csec
      rw [hT] at h
      exact h
    exact ⟨by simp [add_proof_to_control.create_label, hT],
      by simp [add_proof_to_control.create_label, hT, Effects.pr, hc]⟩
  · intro tok eT hT
    simp only [add_proof_to_control.create_label, hT]
    repeat' split
    all_goals simp [Outcome.isRet]
  · intro tok eT msg hT hnet
    refine ⟨by simp [add_proof_to_control.create_label, hT, hnet], ?_⟩
    simp [add_proof_to_control.create_label, hT, hnet, Effects.pr, Effects.addCall,
      Effects.logError]
  · intro tok eT resp hT hnet h4 h6
    refine ⟨by simp [add_proof_to_control.create_label, hT, hnet, h4, h6], ?_⟩
    simp [add_proof_to_control.create_label, hT, hnet, h4, h6, Effects.pr, Effects.addCall,
      Effects.logError]
  -- add_label_proof (AP)
  · intro eT hT
    have hc : eT.calls = [add_proof_to_control.tokenRequest cid csec] := by
      have h := gat_calls_AP net cid csec
      rw [hT] at h
      exact h
    exact ⟨by simp [add_proof_to_control.add_label_proof, hT],
      by simp [add_proof_to_control.add_label_proof, hT, Effects.pr, hc]⟩
  · intro tok eT hT
    simp only [add_proof_to_control.add_label_proof, hT]
    repeat' split
    all_goals simp [Outcome.isRet]
  · intro tok eT hT hf
    refine ⟨by simp [add_proof_to_control.add_label_proof, hT, hf], ?_⟩
    simp [add_proof_to_control.add_label_proof, hT, hf, Effects.pr, Effects.logError]
  · intro tok eT msg hT hf hnet
    refine ⟨by simp [add_proof_to_control.add_label_proof, hT, hf, hnet], ?_⟩
    simp [add_proof_to_control.add_label_proof, hT, hf, hnet, Effects.pr, Effects.addCall,
      Effects.logError]
  · intro tok eT resp hT hf hnet h4 h6
    refine ⟨by simp [add_proof_to_control.add_label_proof, hT, hf, hnet, h4, h6], ?_⟩
    simp [add_proof_to_control.add_label_proof, hT, hf, hnet, h4, h6, Effects.pr,
      Effects.addCall, Effects.logError]
  -- link_label_to_control (AP)
  · intro eT hT
    have hc : eT.calls = [add_proof_to_control.tokenRequest cid csec] := by
      have h := gat_calls_AP net cid csec
      rw [hT] at h
      exact h
    exact ⟨by simp [add_proof_to_control.link_label_to_control, hT],
      by simp [add_proof_to_control.link_label_to_control, hT, Effects.pr, hc]⟩
  · intro tok eT hT
    simp only [add_proof_to_control.link_label_to_control, hT]
    repeat' split
    all_goals simp [Outcome.isRet]
  · intro tok eT msg hT hnet
    refine ⟨by simp [add_proof_to_control.link_label_to_control, hT, hnet], ?_⟩
    simp [add_proof_to_control.link_label_to_control, hT, hnet, Effects.pr, Effects.addCall,
      Effects.logError]
  · intro tok eT resp hT hnet h4 h6
    refine ⟨by simp [add_proof_to_control.link_label_to_control, hT, hnet, h4, h6], ?_⟩
    simp [add_proof_to_control.link_label_to_control, hT, hnet, h4, h6, Effects.pr,
      Effects.addCall, Effects.logError]
  -- add_proof_version (CH)
  · intro eT hT
    have hc : eT.calls = [call_hyperproof_api.tokenRequest cid csec] := by
      have h := gat_calls_CH net cid csec
      rw [hT] at h
      exact h
    exact ⟨by simp [call_hyperproof_api.add_proof_version, hT],
      by simp [call_hyperproof_api.add_proof_version, hT, Effects.pr, hc]⟩
  · intro tok eT hT
    simp only [call_hyperproof_api.add_proof_version, hT]
    repeat' split
    all_goals simp [Outcome.isRet]
  · intro tok eT hT hf
    refine ⟨by simp [call_hyperproof_api.add_proof_version, hT, hf], ?_⟩
    simp [call_hyperproof_api.add_proof_version, hT, hf, Effects.pr, Effects.logError]
  · intro tok eT msg hT hf hnet
    refine ⟨by simp [call_hyperproof_api.add_proof_version, hT, hf, hnet], ?_⟩
    simp [call_hyperproof_api.add_proof_version, hT, hf, hnet, Effects.pr, Effects.addCall,
      Effects.logError]
  · intro tok eT resp hT hf hnet h4 h6
    refine ⟨by simp [call_hyperproof_api.add_proof_version, hT, hf, hnet, h4, h6], ?_⟩
    simp [call_hyperproof_api.add_proof_version, hT, hf, hnet, h4, h6, Effects.pr,
      Effects.addCall, Effects.logError]

/-- C3 witness: with the network down, `add_proof` exits 1 after only the
token request; with a token in hand and a 404 on the upload, `add_proof`
returns `None` and logs the HTTP error. -/
theorem C3_error_propagation_witness :
    (add_proof_to_control.add_proof netDown fsAll (some "id") (some "sec") "f" none none).2.calls
        = [add_proof_to_control.tokenRequest (some "id") (some "sec")]
    ∧ (add_proof_to_control.add_proof netTokThen404 fsAll (some "id") (some "sec") "f" none none).1
        = .ret none
    ∧ ("HTTP error occurred: " ++ toString (404 : Nat) ++ " - " ++ "not found")
        ∈ (add_proof_to_control.add_proof netTokThen404 fsAll (some "id") (some "sec")
            "f" none none).2.logErrors := by
  have h1 := C3_error_propagation netDown fsAll (some "id") (some "sec")
    "f" "p" "c" "l" "n" "d" none none none
  have h2 := C3_error_propagation netTokThen404 fsAll (some "id") (some "sec")
    "f" "p" "c" "l" "n" "d" none none none
  refine ⟨(h1.1 _ rfl).2, ?_, ?_⟩
  · exact (h2.2.2.2.2.1 (.str "tok123") _ ⟨404, "not found", none⟩ rfl rfl rfl
      (by decide) (by decide)).1
  · exact (h2.2.2.2.2.1 (.str "tok123") _ ⟨404, "not found", none⟩ rfl rfl rfl
      (by decide) (by decide)).2

/-- C4 (corrected).  In `add_proof_to_control.py`, `add_control_proof`
with a valid token issues a single POST to the controls base URL joined
by one slash to `{c}/proof` — no doubled slash — with the file attached
as the multipart `proof` part, and on a 2xx JSON response returns the
decoded body.  In `call_hyperproof_api.py`, however, `CONTROLS_API_URL`
ends in a slash, so the same function posts to
`/v1/controls//{c}/proof` with a doubled slash. -/
theorem C4_add_control_proof (net : Net) (fsys : FileSys) (cid csec : Option String)
    (c p : String) (ct : Option String) (tok : Json) (eT : Effects)
    (resp : HttpResponse) (j : Json) :
    add_proof_to_control.control_proof_url c
        = "https://api.hyperproof.app/v1/controls/" ++ c ++ "/proof"
    ∧ (add_proof_to_control.controlProofRequest tok c p ct).method = "POST"
    ∧ (add_proof_to_control.controlProofRequest tok c p ct).url
        = add_proof_to_control.control_proof_url c
    ∧ (add_proof_to_control.controlProofRequest tok c p ct).filePart
        = some ⟨"proof", p, if optTruthy ct then ct else none⟩
    ∧ (add_proof_to_control.get_access_token net cid csec = (.ret (some tok), eT) →
       fsys p = true →
       net (add_proof_to_control.controlProofRequest tok c p ct) = .ok resp →
       200 ≤ resp.status → resp.status < 300 → resp.jsonBody = some j →
       (add_proof_to_control.add_control_proof net fsys cid csec c p ct).1 = .ret (some j)
       ∧ (add_proof_to_control.add_control_proof net fsys cid csec c p ct).2.calls
           = [add_proof_to_control.tokenRequest cid csec,
              add_proof_to_control.controlProofRequest tok c p ct])
    ∧ call_hyperproof_api.control_proof_url c
        = "https://api.hyperproof.app/v1/controls//" ++ c ++ "/proof" := by
  refine ⟨?_, rfl, rfl, rfl, ?_, ?_⟩
  · show (("https://api.hyperproof.app/v1/controls" ++ "/") ++ c) ++ "/proof" = _
    rfl
  · intro hT hf hnet h2 h3 hb
    have hc : eT.calls = [add_proof_to_control.tokenRequest cid csec] := by
      have h := gat_calls_AP net cid csec
      rw [hT] at h
      exact h
    have hlt : ¬ 400 ≤ resp.status := by omega
    constructor
    · simp [add_proof_to_control.add_control_proof, hT, hf, hnet, hlt, hb]
    · simp [add_proof_to_control.add_control_proof, hT, hf, hnet, hlt, hb, Effects.pr,
        Effects.addCall, Effects.logInfo, hc]
  · show (("https://api.hyperproof.app/v1/controls/" ++ "/") ++ c) ++ "/proof" = _
    rfl

/-- C4 witness: with a mocked 201 response carrying an id field,
`add_control_proof("C1", "evidence.json")` in `add_proof_to_control.py`
returns the decoded body after exactly the token request and the single
POST to `/v1/controls/C1/proof`. -/
theorem C4_add_control_proof_witness :
    (add_proof_to_control.add_control_proof netTokThen201 fsAll (some "id") (some "sec")
        "C1" "evidence.json" none).1
      = .ret (some (.obj [("id", .str "p-1")]))
    ∧ (add_proof_to_control.add_control_proof netTokThen201 fsAll (some "id") (some "sec")
        "C1" "evidence.json" none).2.calls
      = [add_proof_to_control.tokenRequest (some "id") (some "sec"),
         add_proof_to_control.controlProofRequest (.str "tok123") "C1" "evidence.json" none] := by
  have h := C4_add_control_proof netTokThen201 fsAll (some "id") (some "sec")
    "C1" "evidence.json" none (.str "tok123")
    { calls := [add_proof_to_control.tokenRequest (some "id") (some "sec")]
      stdout := ["Attempting to fetch access token from " ++
                   add_proof_to_control.OAUTH_TOKEN_URL ++ "...",
                 "✅ Successfully obtained access token."] }
    { status := 201, text := "created", jsonBody := some (.obj [("id", .str "p-1")]) }
    (.obj [("id", .str "p-1")])
  exact h.2.2.2.2.1 rfl rfl rfl (by decide) (by decide) rfl

/-- C4 counterexample: the `call_hyperproof_api.py` copy of
`add_control_proof` posts to `/v1/controls//C1/proof` — a doubled slash —
rather than the claimed `/v1/controls/C1/proof`. -/
theorem C4_counterexample :
    (call_hyperproof_api.add_control_proof netTokThen201 fsAll (some "id") (some "sec")
        "C1" "evidence.json" none).2.calls.map (fun r => r.url)
      = ["https://accounts.hyperproof.app/oauth/token",
         "https://api.hyperproof.app/v1/controls//C1/proof"]
    ∧ "https://api.hyperproof.app/v1/controls//C1/proof"
        ≠ "https://api.hyperproof.app/v1/controls/C1/proof" := by
  exact ⟨rfl, by decide⟩

/-- C5 (corrected).  `create_label` sends an explicit
`Content-Type: application/json` header with a JSON body and no file.
`add_proof_version`, `add_control_proof` and `add_label_proof` send
multipart data whose file part carries no content type unless the caller
supplies a non-empty override, in which case exactly that override is
used.  `add_proof`, however, takes no override argument and always
hardcodes `application/json` as the file part's content type. -/
theorem C5_content_types (net : Net) (fsys : FileSys) (cid csec : Option String)
    (nm ds p pid c l m : String) (ct : Option String) (tok : Json)
    (d : List (String × Option String)) :
    ("Content-Type", "application/json") ∈ (add_proof_to_control.labelRequest tok nm ds).headers
    ∧ (add_proof_to_control.labelRequest tok nm ds).jsonBody
        = some (.obj [("name", .str nm), ("description", .str ds)])
    ∧ (add_proof_to_control.labelRequest tok nm ds).filePart = none
    ∧ (∀ eT, add_proof_to_control.get_access_token net cid csec = (.ret (some tok), eT) →
        (add_proof_to_control.create_label net cid csec nm ds).2.calls
          = [add_proof_to_control.tokenRequest cid csec,
             add_proof_to_control.labelRequest tok nm ds])
    ∧ (add_proof_to_control.versionRequest tok pid p none).filePart = some ⟨"proof", p, none⟩
    ∧ (m ≠ "" → (add_proof_to_control.versionRequest tok pid p (some m)).filePart
        = some ⟨"proof", p, some m⟩)
    ∧ (add_proof_to_control.controlProofRequest tok c p none).filePart = some ⟨"proof", p, none⟩
    ∧ (m ≠ "" → (add_proof_to_control.controlProofRequest tok c p (some m)).filePart
        = some ⟨"proof", p, some m⟩)
    ∧ (add_proof_to_control.labelProofRequest tok l p none).filePart = some ⟨"proof", p, none⟩
    ∧ (m ≠ "" → (add_proof_to_control.labelProofRequest tok l p (some m)).filePart
        = some ⟨"proof", p, some m⟩)
    ∧ (∀ eT, add_proof_to_control.get_access_token net cid csec = (.ret (some tok), eT) →
        fsys p = true →
        (add_proof_to_control.add_proof_version net fsys cid csec pid p ct).2.calls
          = [add_proof_to_control.tokenRequest cid csec,
             add_proof_to_control.versionRequest tok pid p ct])
    ∧ (∀ eT, add_proof_to_control.get_access_token net cid csec = (.ret (some tok), eT) →
        fsys p = true →
        (add_proof_to_control.add_label_proof net fsys cid csec l p ct).2.calls
          = [add_proof_to_control.tokenRequest cid csec,
             add_proof_to_control.labelProofRequest tok l p ct])
    ∧ (add_proof_to_control.proofRequest tok p d).filePart
        = some ⟨"proof", p, some "application/json"⟩
    ∧ (call_hyperproof_api.proofRequest tok p d).filePart
        = some ⟨"proof", p, some "application/json"⟩ := by
  refine ⟨by simp [add_proof_to_control.labelRequest], rfl, rfl, ?_, rfl, ?_, rfl, ?_, rfl, ?_,
    ?_, ?_, rfl, rfl⟩
  · intro eT hT
    have hc : eT.calls = [add_proof_to_control.tokenRequest cid csec] := by
      have h := gat_calls_AP net cid csec
      rw [hT] at h
      exact h
    simp only [add_proof_to_control.create_label, hT]
    repeat' split
    all_goals simp [Effects.pr, Effects.addCall, Effects.logError, Effects.logInfo, hc]
  · intro hm
    simp [add_proof_to_control.versionRequest, optTruthy, hm]
  · intro hm
    simp [add_proof_to_control.controlProofRequest, optTruthy, hm]
  · intro hm
    simp [add_proof_to_control.labelProofRequest, optTruthy, hm]
  · intro eT hT hf
    have hc : eT.calls = [add_proof_to_control.tokenRequest cid csec] := by
      have h := gat_calls_AP net cid csec
      rw [hT] at h
      exact h
    simp only [add_proof_to_control.add_proof_version, hT]
    repeat' split
    all_goals simp_all [Effects.pr, Effects.addCall, Effects.logError, Effects.logInfo, hc]
  · intro eT hT hf
    have hc : eT.calls = [add_proof_to_control.tokenRequest cid csec] := by
      have h := gat_calls_AP net cid csec
      rw [hT] at h
      exact h
    simp only [add_proof_to_control.add_label_proof, hT]
    repeat' split
    all_goals simp_all [Effects.pr, Effects.addCall, Effects.logError, Effects.logInfo, hc]

/-- C5 witness: `create_label` issues exactly the token request and the
JSON POST, and a non-empty override on `add_proof_version` is used as
the file part's content type. -/
theorem C5_content_types_witness :
    (add_proof_to_control.create_label netTokThen201 (some "id") (some "sec")
        "My Label" "desc").2.calls
      = [add_proof_to_control.tokenRequest (some "id") (some "sec"),
         add_proof_to_control.labelRequest (.str "tok123") "My Label" "desc"]
    ∧ (add_proof_to_control.versionRequest (.str "tok123") "p1" "f.pdf"
        (some "application/pdf")).filePart
      = some ⟨"proof", "f.pdf", some "application/pdf"⟩ := by
  have h := C5_content_types netTokThen201 fsAll (some "id") (some "sec")
    "My Label" "desc" "f.pdf" "p1" "c" "l" "application/pdf" none (.str "tok123") []
  exact ⟨h.2.2.2.1
    { calls := [add_proof_to_control.tokenRequest (some "id") (some "sec")]
      stdout := ["Attempting to fetch access token from " ++
                   add_proof_to_control.OAUTH_TOKEN_URL ++ "...",
                 "✅ Successfully obtained access token."] } rfl,
    h.2.2.2.2.2.1 (by decide)⟩

/-- C5 counterexample: `add_proof` offers no MIME override yet its
multipart file part carries the explicit content type
`application/json`, contradicting the claim that no explicit content
type is set without an override. -/
theorem C5_counterexample :
    ((add_proof_to_control.add_proof netTokThen201 fsAll (some "id") (some "sec")
        "f" none none).2.calls.map (fun r => r.filePart))
      = [none, some ⟨"proof", "f", some "application/json"⟩]
    ∧ (some (FilePart.mk "proof" "f" (some "application/json")))
        ≠ (some ⟨"proof", "f", none⟩ : Option FilePart) := by
  exact ⟨rfl, by decide⟩

/-- C6 (corrected).  Every sub-resource URL is the fixed base joined by
one extra `/` to the literal template — but `PROOF_API_URL` and
`LABELS_API_URL` already end in `/`, so the proof-version and label-proof
URLs contain a doubled slash.  Only the label-linking URL, built from
`add_proof_to_control.py`'s slash-free controls base, is clean. -/
theorem C6_sub_resource_urls (pid l c lab : String) :
    add_proof_to_control.version_url pid
        = "https://api.hyperproof.app/v1/proof//" ++ pid ++ "/versions"
    ∧ add_proof_to_control.label_proof_url l
        = "https://api.hyperproof.app/v1/labels//" ++ l ++ "/proof"
    ∧ add_proof_to_control.link_url c lab
        = "https://api.hyperproof.app/v1/controls/" ++ c ++ "/labels/" ++ lab
    ∧ call_hyperproof_api.version_url pid
        = "https://api.hyperproof.app/v1/proof//" ++ pid ++ "/versions" :=
  ⟨rfl, rfl, rfl, rfl⟩

/-- C6 counterexample: the proof-version URL for proof id `p1` carries a
doubled slash and is not the single-slash URL the claim requires. -/
theorem C6_counterexample :
    add_proof_to_control.version_url "p1" = "https://api.hyperproof.app/v1/proof//p1/versions"
    ∧ add_proof_to_control.version_url "p1"
        ≠ "https://api.hyperproof.app/v1/proof/p1/versions" := by
  exact ⟨rfl, by decide⟩

/-- C7 (corrected).  `link_label_to_control` issues a bodiless POST (no
form fields, no file part, no JSON body) to the compound URL
`<controls base>/{controlId}/labels/{labelId}` and returns `True`
exactly when `raise_for_status` does not raise (status outside
400–599); on failure, however, it returns `None` — not `False` — so the
result is not a boolean on every outcome. -/
theorem C7_link_label_to_control (net : Net) (cid csec : Option String)
    (c l : String) (tok : Json) :
    (add_proof_to_control.linkRequest tok c l).method = "POST"
    ∧ (add_proof_to_control.linkRequest tok c l).formFields = []
    ∧ (add_proof_to_control.linkRequest tok c l).filePart = none
    ∧ (add_proof_to_control.linkRequest tok c l).jsonBody = none
    ∧ (add_proof_to_control.linkRequest tok c l).url = add_proof_to_control.link_url c l
    ∧ (∀ eT, add_proof_to_control.get_access_token net cid csec = (.ret (some tok), eT) →
        (add_proof_to_control.link_label_to_control net cid csec c l).2.calls
          = [add_proof_to_control.tokenRequest cid csec,
             add_proof_to_control.linkRequest tok c l])
    ∧ (∀ eT resp, add_proof_to_control.get_access_token net cid csec = (.ret (some tok), eT) →
        net (add_proof_to_control.linkRequest tok c l) = .ok resp → resp.status < 400 →
        (add_proof_to_control.link_label_to_control net cid csec c l).1
          = .ret (some (.bool true)))
    ∧ (∀ eT resp, add_proof_to_control.get_access_token net cid csec = (.ret (some tok), eT) →
        net (add_proof_to_control.linkRequest tok c l) = .ok resp →
        400 ≤ resp.status → resp.status < 600 →
        (add_proof_to_control.link_label_to_control net cid csec c l).1 = .ret none)
    ∧ (∀ eT msg, add_proof_to_control.get_access_token net cid csec = (.ret (some tok), eT) →
        net (add_proof_to_control.linkRequest tok c l) = .netError msg →
        (add_proof_to_control.link_label_to_control net cid csec c l).1 = .ret none) := by
  refine ⟨rfl, rfl, rfl, rfl, rfl, ?_, ?_, ?_, ?_⟩
  · intro eT hT
    have hc : eT.calls = [add_proof_to_control.tokenRequest cid csec] := by
      have h := gat_calls_AP net cid csec
      rw [hT] at h
      exact h
    simp only [add_proof_to_control.link_label_to_control, hT]
    repeat' split
    all_goals simp [Effects.pr, Effects.addCall, Effects.logError, Effects.logInfo, hc]
  · intro eT resp hT hnet hlt
    have h4 : ¬ 400 ≤ resp.status := by omega
    simp [add_proof_to_control.link_label_to_control, hT, hnet, h4]
  · intro eT resp hT hnet h4 h6
    simp [add_proof_to_control.link_label_to_control, hT, hnet, h4, h6]
  · intro eT msg hT hnet
    simp [add_proof_to_control.link_label_to_control, hT, hnet]

/-- C7 witness: with a 200 on the link POST the function returns `True`
after exactly the token request and the bodiless compound-URL POST. -/
theorem C7_link_label_to_control_witness :
    (add_proof_to_control.link_label_to_control netTokOK (some "id") (some "sec") "C1" "L1").1
        = .ret (some (.bool true))
    ∧ (add_proof_to_control.link_label_to_control netTokOK (some "id") (some "sec")
        "C1" "L1").2.calls
      = [add_proof_to_control.tokenRequest (some "id") (some "sec"),
         add_proof_to_control.linkRequest (.str "tok123") "C1" "L1"] := by
  have h := C7_link_label_to_control netTokOK (some "id") (some "sec") "C1" "L1" (.str "tok123")
  refine ⟨h.2.2.2.2.2.2.1
    { calls := [add_proof_to_control.tokenRequest (some "id") (some "sec")]
      stdout := ["Attempting to fetch access token from " ++
                   add_proof_to_control.OAUTH_TOKEN_URL ++ "...",
                 "✅ Successfully obtained access token."] }
    tokenOkResponse rfl rfl (by decide),
    h.2.2.2.2.2.1
    { calls := [add_proof_to_control.tokenRequest (some "id") (some "sec")]
      stdout := ["Attempting to fetch access token from " ++
                   add_proof_to_control.OAUTH_TOKEN_URL ++ "...",
                 "✅ Successfully obtained access token."] } rfl⟩

/-- C7 counterexample: on a 404 link response the function returns
`None`, which is neither `True` nor `False` — not a boolean success
indicator on every outcome. -/
theorem C7_counterexample :
    (add_proof_to_control.link_label_to_control netTokThen404 (some "id") (some "sec")
        "C1" "L1").1 = .ret none
    ∧ (add_proof_to_control.link_label_to_control netTokThen404 (some "id") (some "sec")
        "C1" "L1").1 ≠ .ret (some (.bool true))
    ∧ (add_proof_to_control.link_label_to_control netTokThen404 (some "id") (some "sec")
        "C1" "L1").1 ≠ .ret (some (.bool false)) := by
  have hres : (add_proof_to_control.link_label_to_control netTokThen404 (some "id") (some "sec")
      "C1" "L1").1 = (.ret none : Outcome (Option Json)) := rfl
  refine ⟨hres, ?_, ?_⟩
  · rw [hres]
    simp
  · rw [hres]
    simp

/-- C8 (corrected).  `get_access_token`, `add_proof` and
`add_proof_version` are extensionally identical across the two scripts:
same requests, same output, same results on every input.
`add_control_proof` is not (see the counterexample): the two copies
target different URLs because `CONTROLS_API_URL` differs by a trailing
slash. -/
theorem C8_duplicate_functions (net : Net) (fsys : FileSys) (cid csec : Option String)
    (p pid : String) (oid ot ct : Option String) :
    add_proof_to_control.get_access_token net cid csec
        = call_hyperproof_api.get_access_token net cid csec
    ∧ add_proof_to_control.add_proof net fsys cid csec p oid ot
        = call_hyperproof_api.add_proof net fsys cid csec p oid ot
    ∧ add_proof_to_control.add_proof_version net fsys cid csec pid p ct
        = call_hyperproof_api.add_proof_version net fsys cid csec pid p ct :=
  ⟨rfl, rfl, rfl⟩

/-- C8 counterexample: on identical inputs the two copies of
`add_control_proof` issue their action POST to different URLs
(`/v1/controls/C1/proof` vs `/v1/controls//C1/proof`), so the functions
are not extensionally equivalent. -/
theorem C8_counterexample :
    (add_proof_to_control.add_control_proof netTokThen201 fsAll (some "id") (some "sec")
        "C1" "f" none).2.calls.map (fun r => r.url)
      ≠ (call_hyperproof_api.add_control_proof netTokThen201 fsAll (some "id") (some "sec")
        "C1" "f" none).2.calls.map (fun r => r.url) := by
  have h1 : (add_proof_to_control.add_control_proof netTokThen201 fsAll (some "id") (some "sec")
      "C1" "f" none).2.calls.map (fun r => r.url)
    = ["https://accounts.hyperproof.app/oauth/token",
       "https://api.hyperproof.app/v1/controls/C1/proof"] := rfl
  have h2 : (call_hyperproof_api.add_control_proof netTokThen201 fsAll (some "id") (some "sec")
      "C1" "f" none).2.calls.map (fun r => r.url)
    = ["https://accounts.hyperproof.app/oauth/token",
       "https://api.hyperproof.app/v1/controls//C1/proof"] := rfl
  rw [h1, h2]
  decide

/-- C9 (confirmed).  `add_proof` attaches the `objectId`/`objectType`
form fields exactly when both arguments are truthy (provided and
non-empty); if either is missing or empty, neither field is sent. -/
theorem C9_object_fields (net : Net) (fsys : FileSys) (cid csec : Option String)
    (p : String) (oid ot : Option String) (tok : Json) (d : List (String × Option String)) :
    (add_proof_to_control.proofRequest tok p d).formFields = d
    ∧ (∀ eT, add_proof_to_control.get_access_token net cid csec = (.ret (some tok), eT) →
        fsys p = true →
        (add_proof_to_control.add_proof net fsys cid csec p oid ot).2.calls
          = [add_proof_to_control.tokenRequest cid csec,
             add_proof_to_control.proofRequest tok p
               (if optTruthy oid && optTruthy ot
                then [("objectId", oid), ("objectType", ot)] else [])])
    ∧ (optTruthy oid = true → optTruthy ot = true →
        (if optTruthy oid && optTruthy ot
         then [("objectId", oid), ("objectType", ot)]
         else ([] : List (String × Option String)))
          = [("objectId", oid), ("objectType", ot)])
    ∧ (optTruthy oid = false →
        (if optTruthy oid && optTruthy ot
         then [("objectId", oid), ("objectType", ot)]
         else ([] : List (String × Option String))) = [])
    ∧ (optTruthy ot = false →
        (if optTruthy oid && optTruthy ot
         then [("objectId", oid), ("objectType", ot)]
         else ([] : List (String × Option String))) = [])
    ∧ (∀ eT, call_hyperproof_api.get_access_token net cid csec = (.ret (some tok), eT) →
        fsys p = true →
        (call_hyperproof_api.add_proof net fsys cid csec p oid ot).2.calls
          = [call_hyperproof_api.tokenRequest cid csec,
             call_hyperproof_api.proofRequest tok p
               (if optTruthy oid && optTruthy ot
                then [("objectId", oid), ("objectType", ot)] else [])]) := by
  refine ⟨rfl, ?_, ?_, ?_, ?_, ?_⟩
  · intro eT hT hf
    have hc : eT.calls = [add_proof_to_control.tokenRequest cid csec] := by
      have h := gat_calls_AP net cid csec
      rw [hT] at h
      exact h
    simp only [add_proof_to_control.add_proof, hT]
    repeat' split
    all_goals simp_all [Effects.pr, Effects.addCall, Effects.logError, Effects.logInfo, hc]
  · intro h1 h2
    simp [h1, h2]
  · intro h1
    simp [h1]
  · intro h2
    simp [h2]
  · intro eT hT hf
    have hc : eT.calls = [call_hyperproof_api.tokenRequest cid csec] := by
      have h := gat_calls_CH net cid csec
      rw [hT] at h
      exact h
    simp only [call_hyperproof_api.add_proof, hT]
    repeat' split
    all_goals simp_all [Effects.pr, Effects.addCall, Effects.logError, Effects.logInfo, hc]

/-- C9 witness: with both `object_id` and `object_type` supplied and
non-empty, the upload request carries both form fields; with only one
supplied, it carries neither. -/
theorem C9_object_fields_witness :
    (add_proof_to_control.add_proof netTokThen201 fsAll (some "id") (some "sec")
        "f" (some "o-1") (some "controls")).2.calls.map (fun r => r.formFields)
      = [[("grant_type", some "client_credentials"),
          ("client_id", some "id"), ("client_secret", some "sec")],
         [("objectId", some "o-1"), ("objectType", some "controls")]]
    ∧ (add_proof_to_control.add_proof netTokThen201 fsAll (some "id") (some "sec")
        "f" (some "o-1") none).2.calls.map (fun r => r.formFields)
      = [[("grant_type", some "client_credentials"),
          ("client_id", some "id"), ("client_secret", some "sec")],
         []] := by
  have h1 := C9_object_fields netTokThen201 fsAll (some "id") (some "sec")
    "f" (some "o-1") (some "controls") (.str "tok123") []
  have h2 := C9_object_fields netTokThen201 fsAll (some "id") (some "sec")
    "f" (some "o-1") none (.str "tok123") []
  have e1 := h1.2.1
    { calls := [add_proof_to_control.tokenRequest (some "id") (some "sec")]
      stdout := ["Attempting to fetch access token from " ++
                   add_proof_to_control.OAUTH_TOKEN_URL ++ "...",
                 "✅ Successfully obtained access token."] } rfl rfl
  have e2 := h2.2.1
    { calls := [add_proof_to_control.tokenRequest (some "id") (some "sec")]
      stdout := ["Attempting to fetch access token from " ++
                   add_proof_to_control.OAUTH_TOKEN_URL ++ "...",
                 "✅ Successfully obtained access token."] } rfl rfl
  rw [e1, e2]
  exact ⟨rfl, rfl⟩

theorem gat_logs_CH (net : Net) (cid csec : Option String) :
    (call_hyperproof_api.get_access_token net cid csec).2.logErrors = []
    ∧ (call_hyperproof_api.get_access_token net cid csec).2.logInfos = [] := by
  rcases h : net (call_hyperproof_api.tokenRequest cid csec) with msg | resp
  · simp [call_hyperproof_api.get_access_token, h, Effects.pr]
  · rcases resp with ⟨st, tx, jb⟩
    by_cases hs : st = 200
    · rcases jb with _ | j
      · simp [call_hyperproof_api.get_access_token, h, hs, Effects.pr]
      · rcases j with _ | b | n | s | el | fl
        · simp [call_hyperproof_api.get_access_token, h, hs, Effects.pr]
        · simp [call_hyperproof_api.get_access_token, h, hs, Effects.pr]
        · simp [call_hyperproof_api.get_access_token, h, hs, Effects.pr]
        · simp [call_hyperproof_api.get_access_token, h, hs, Effects.pr]
        · simp [call_hyperproof_api.get_access_token, h, hs, Effects.pr]
        · simp [call_hyperproof_api.get_access_token, h, hs, Effects.pr]
          split <;> simp [Effects.pr]
    · simp [call_hyperproof_api.get_access_token, h, hs, Effects.pr]

/-- C10 (corrected).  `fetch_hyperproof_controls` never returns a
payload: once the controls GET is reached, every outcome of it —
success, non-200, transport error, decode error, or other exception —
is printed to stdout and the function returns `None` with nothing sent
to the logger.  But the function does not always return and can raise:
with missing or empty credentials, or when token acquisition yields
`None`, it terminates via `sys.exit(1)` instead of returning, and
because `get_access_token` is called outside the try block, an
exception raised there (a 200 token response whose JSON body is not an
object) propagates uncaught to the caller. -/
theorem C10_fetch_controls (net : Net) (cid csec : Option String) :
    (optTruthy cid = false ∨ optTruthy csec = false →
      (call_hyperproof_api.fetch_hyperproof_controls net cid csec).1 = .exit 1
      ∧ (call_hyperproof_api.fetch_hyperproof_controls net cid csec).2.calls = [])
    ∧ (optTruthy cid = true → optTruthy csec = true →
      ∀ eT, call_hyperproof_api.get_access_token net cid csec = (.ret none, eT) →
      call_hyperproof_api.fetch_hyperproof_controls net cid csec
        = (.exit 1, eT.pr "❌ Halting script: Could not obtain access token."))
    ∧ (optTruthy cid = true → optTruthy csec = true →
      ∀ eT n, call_hyperproof_api.get_access_token net cid csec = (.exc n, eT) →
      call_hyperproof_api.fetch_hyperproof_controls net cid csec = (.exc n, eT))
    ∧ (optTruthy cid = true → optTruthy csec = true →
      ∀ tok eT, call_hyperproof_api.get_access_token net cid csec = (.ret (some tok), eT) →
      (call_hyperproof_api.fetch_hyperproof_controls net cid csec).1 = .ret none
      ∧ (call_hyperproof_api.fetch_hyperproof_controls net cid csec).2.logErrors = []
      ∧ (call_hyperproof_api.fetch_hyperproof_controls net cid csec).2.logInfos = []) := by
  refine ⟨?_, ?_, ?_, ?_⟩
  · intro hcred
    rcases hcred with hcred | hcred <;>
      simp [call_hyperproof_api.fetch_hyperproof_controls, hcred]
  · intro h1 h2 eT hT
    simp [call_hyperproof_api.fetch_hyperproof_controls, h1, h2, hT]
  · intro h1 h2 eT n hT
    simp [call_hyperproof_api.fetch_hyperproof_controls, h1, h2, hT]
  · intro h1 h2 tok eT hT
    have hle : eT.logErrors = [] ∧ eT.logInfos = [] := by
      have h := gat_logs_CH net cid csec
      rw [hT] at h
      exact h
    refine ⟨?_, ?_, ?_⟩ <;>
    · simp only [call_hyperproof_api.fetch_hyperproof_controls, h1, h2, hT]
      repeat' split
      all_goals simp_all [Effects.pr, Effects.addCall, Effects.logError, Effects.logInfo,
        hle.1, hle.2]

/-- C10 witness: with credentials present and a successful token fetch,
fetching controls returns `None` and logs nothing; with the network
down, token acquisition fails and the function exits 1. -/
theorem C10_fetch_controls_witness :
    (call_hyperproof_api.fetch_hyperproof_controls netTokOK (some "id") (some "sec")).1
        = .ret none
    ∧ (call_hyperproof_api.fetch_hyperproof_controls netTokOK (some "id") (some "sec")).2.logErrors
        = []
    ∧ (call_hyperproof_api.fetch_hyperproof_controls netDown (some "id") (some "sec")).1
        = .exit 1 := by
  have h := C10_fetch_controls netTokOK (some "id") (some "sec")
  have h4 := h.2.2.2 (by decide) (by decide) (.str "tok123")
    { calls := [call_hyperproof_api.tokenRequest (some "id") (some "sec")]
      stdout := ["Attempting to fetch access token from " ++
                   call_hyperproof_api.OAUTH_TOKEN_URL ++ "...",
                 "✅ Successfully obtained access token."] } rfl
  have hd := C10_fetch_controls netDown (some "id") (some "sec")
  have hb := hd.2.1 (by decide) (by decide)
    { calls := [call_hyperproof_api.tokenRequest (some "id") (some "sec")]
      stdout := ["Attempting to fetch access token from " ++
                   call_hyperproof_api.OAUTH_TOKEN_URL ++ "...",
                 "❌ A network error occurred while getting token: connection refused"] } rfl
  exact ⟨h4.1, h4.2.1, by rw [hb]⟩

/-- C10 counterexample: when the token endpoint answers 200 with a JSON
array body, `fetch_hyperproof_controls` raises an uncaught
`AttributeError` to its caller instead of returning null — the token
call sits outside the try block. -/
theorem C10_counterexample :
    (call_hyperproof_api.fetch_hyperproof_controls netTokArr (some "id") (some "sec")).1
        = .exc "AttributeError"
    ∧ (call_hyperproof_api.fetch_hyperproof_controls netTokArr (some "id") (some "sec")).1
        ≠ .ret none := by
  have hres : (call_hyperproof_api.fetch_hyperproof_controls netTokArr (some "id")
      (some "sec")).1 = (.exc "AttributeError" : Outcome (Option Json)) := rfl
  refine ⟨hres, ?_⟩
  rw [hres]
  simp
